import Mathlib

/-!
Shallow embedding of the PortLang investment-portfolio DSL compiler
(`src/port.py`): the structured error model (`DSLError`, `ErrorCollector`),
the lexer (`PortfolioLexer.tokenize` and its helpers), the error-tolerant
recursive-descent parser (`PortfolioParser`), and the semantic validator
(`PortfolioValidator`), together with theorems settling the frozen claims
about this pipeline.

Modelling conventions:
* Python numbers (`int`/`float` produced by `read_number`) are modeled as
  exact fractions (`Frac`, an integer numerator over a positive natural
  denominator, not normalized) so that every computation reduces inside the
  Lean kernel.  All numeric literals appearing in the claims are exactly
  representable, so no float-rounding issue is abstracted away.
* Human-readable f-string messages and suggestions are modeled as structured
  payloads (`Msg`, `Sugg`) carrying exactly the data interpolated by the
  source; fixed text is kept as a dedicated constructor.
* Python dictionaries (`configuracoes`, `alocacao`, ...) are modeled as
  records with optional fields, and the allocation as an insertion-ordered
  association list with overwrite-in-place semantics (`dictInsert`), matching
  `dict` behaviour.
* The parser's section loops (`parse_configuracoes`, `parse_alocacao`,
  `parse_restricoes`) are modeled with an explicit fuel argument.  On every
  iteration the Python loops first consume the recognized keyword, so on any
  EOF-terminated token sequence (as produced by `tokenize`) the cursor
  strictly advances and `tokens.length + 1` fuel is never exhausted; the
  fuel-0 branch corresponds to the (unreachable there) non-termination of
  the Python loops on malformed token lists.
-/

namespace PortLang

/-- Exact fraction: `num / den` with `den` positive by construction everywhere
in the pipeline.  Stands in for Python's `int`/`float` values. -/
structure Frac where
  num : Int
  den : Nat
deriving DecidableEq, Repr

instance : OfNat Frac n := ⟨⟨n, 1⟩⟩

/-- Addition by cross multiplication (no normalization). -/
def Frac.add (a b : Frac) : Frac := ⟨a.num * b.den + b.num * a.den, a.den * b.den⟩

/-- Subtraction by cross multiplication (no normalization). -/
def Frac.sub (a b : Frac) : Frac := ⟨a.num * b.den - b.num * a.den, a.den * b.den⟩

/-- Absolute value. -/
def Frac.abs (a : Frac) : Frac := ⟨a.num.natAbs, a.den⟩

/-- Order by cross multiplication. -/
def Frac.lt (a b : Frac) : Prop := a.num * b.den < b.num * a.den

/-- Order by cross multiplication. -/
def Frac.le (a b : Frac) : Prop := a.num * b.den ≤ b.num * a.den

instance : Add Frac := ⟨Frac.add⟩
instance : Sub Frac := ⟨Frac.sub⟩
instance : LT Frac := ⟨Frac.lt⟩
instance : LE Frac := ⟨Frac.le⟩

instance (a b : Frac) : Decidable (a < b) := Int.decLt _ _
instance (a b : Frac) : Decidable (a ≤ b) := Int.decLe _ _

/-- Interpretation of a `Frac` as a Mathlib rational. -/
def Frac.toRat (a : Frac) : ℚ := (a.num : ℚ) / (a.den : ℚ)

/-- The epsilon `0.01` used by the allocation-sum check. -/
def centi : Frac := ⟨1, 100⟩

/-- Truthiness of a number in Python (`if numero:`): nonzero. -/
def Frac.truthy (a : Frac) : Bool := a.num ≠ 0

/-- Token kinds, from class `TokenType` in `src/port.py`. -/
inductive TokenType
  | CARTEIRA | NOME | PERFIL | HORIZONTE_TEMPORAL | ALOCACAO | RESTRICOES
  | REBALANCEAMENTO
  | ACOES_NACIONAIS | ACOES_INTERNACIONAIS | FUNDOS_IMOBILIARIOS
  | FUNDOS_MULTIMERCADO | RENDA_FIXA
  | VOLATILIDADE_MAXIMA | TAXA_ADMINISTRATIVA_MAXIMA | SETORIAL | GEOGRAFICO
  | FREQUENCIA | TOLERANCIA
  | ANOS | MESES | TRIMESTRAL | SEMESTRAL | ANUAL | MENSAL
  | IGUAL | CHAVE_ABRE | CHAVE_FECHA | PONTO_VIRGULA | PORCENTAGEM
  | STRING | NUMERO | IDENTIFICADOR
  | EOF | NEWLINE
deriving DecidableEq, Repr

/-- A token value (`Token.value` is `Any` in the source: a string, a number,
or Python `None` for the EOF token). -/
inductive Value
  | str (s : String)
  | num (q : Frac)
  | none
deriving DecidableEq, Repr

/-- Python truthiness of a token value (`if not value:`). -/
def Value.truthy : Value → Bool
  | .str s => !s.isEmpty
  | .num q => q.truthy
  | .none => false

/-- Token record, from dataclass `Token`. -/
structure Token where
  type : TokenType
  value : Value
  line : Nat
  column : Nat
deriving DecidableEq, Repr

/-- Error categories, from enum `ErrorType`. -/
inductive ErrorType
  | LEXICAL | SYNTACTIC | SEMANTIC | VALIDATION | GENERATION
deriving DecidableEq, Repr

/-- Severities, from enum `ErrorSeverity`. -/
inductive ErrorSeverity
  | ERROR | WARNING | INFO
deriving DecidableEq, Repr

/-- Structured message payloads: one constructor per f-string message of the
source, carrying exactly the interpolated data. -/
inductive Msg
  | stringQuebraLinha
  | stringNaoFechada
  | numeroMultiplosPontos
  | caractereNaoReconhecido (c : Char)
  | esperadoEncontrado (expected found : TokenType)
  | erroInternoParser
  | dadosInvalidos
  | nenhumaAlocacao
  | somaExcede (total : Frac)
  | somaFalta (total : Frac)
  | alocacaoForaIntervalo (asset : String) (p : Frac)
  | perfilNaoDefinido
  | perfilConservadorRisco (e : Frac)
  | perfilModeradoRisco (e : Frac)
  | perfilArrojadoRisco (e : Frac)
  | volatilidadeInvalida (v : Frac)
  | taxaInvalida (t : Frac)
deriving DecidableEq, Repr

/-- Structured suggestion payloads, analogous to `Msg`. -/
inductive Sugg
  | fecheStringMesmaLinha
  | adicioneAspas
  | useUmPonto
  | verifiqueCaracteres
  | adicioneToken (k : TokenType)
  | adicioneAtivo
  | reduzaEm (q : Frac)
  | adicioneFalta (q : Frac)
  | usePercentuais
  | definaPerfil
  | reduzaExposicao
  | mantenhaExposicao
  | aumenteExposicao
  | useValoresVolatilidade
  | useValoresTaxa
deriving DecidableEq, Repr

/-- Structured error record, from dataclass `DSLError`. -/
structure DSLError where
  type : ErrorType
  severity : ErrorSeverity
  code : String
  message : Msg
  line : Option Nat := Option.none
  column : Option Nat := Option.none
  suggestion : Option Sugg := Option.none
deriving DecidableEq, Repr

/-- Centralized diagnostic collector, from class `ErrorCollector`: three
ordered buckets, routed by severity. -/
structure ErrColl where
  errors : List DSLError
  warnings : List DSLError
  infos : List DSLError
deriving DecidableEq, Repr

/-- A fresh collector (`ErrorCollector.__init__`). -/
def ErrColl.empty : ErrColl := ⟨[], [], []⟩

/-- Routes one diagnostic into the bucket of its severity, appending at the
end (`ErrorCollector.add_error`). -/
def ErrColl.add (c : ErrColl) (e : DSLError) : ErrColl :=
  match e.severity with
  | .ERROR => ⟨c.errors ++ [e], c.warnings, c.infos⟩
  | .WARNING => ⟨c.errors, c.warnings ++ [e], c.infos⟩
  | .INFO => ⟨c.errors, c.warnings, c.infos ++ [e]⟩

/-- Blocking-error predicate (`ErrorCollector.has_errors`). -/
def ErrColl.hasErrors (c : ErrColl) : Bool := !c.errors.isEmpty

-- ==========================================================================
-- Lexer (`PortfolioLexer`)
-- ==========================================================================

/-- Characters skipped by `skip_whitespace`. -/
def isWSChar (c : Char) : Bool := c = ' ' || c = '\t'

/-- Characters skipped by `skip_newlines`. -/
def isNLChar (c : Char) : Bool := c = '\n' || c = '\r'

/-- Position update of `PortfolioLexer.advance` for one character. -/
def advancePos (c : Char) (l col : Nat) : Nat × Nat :=
  if c = '\n' then (l + 1, 1) else (l, col + 1)

/-- Python's Unicode `str.isalnum`, restricted to this DSL's alphabet
(ASCII alphanumerics plus the accented letters appearing in keywords). -/
def pyIsAlnum (c : Char) : Bool :=
  c.isAlphanum || c = 'ç' || c = 'ã' || c = 'õ' || c = 'á' || c = 'é' ||
    c = 'í' || c = 'ó' || c = 'ú' || c = 'â' || c = 'ê' || c = 'ô' || c = 'à'

/-- Python's Unicode `str.isalpha`, restricted likewise. -/
def pyIsAlpha (c : Char) : Bool :=
  c.isAlpha || c = 'ç' || c = 'ã' || c = 'õ' || c = 'á' || c = 'é' ||
    c = 'í' || c = 'ó' || c = 'ú' || c = 'â' || c = 'ê' || c = 'ô' || c = 'à'

/-- Identifier continuation characters of `read_identifier`
(`isalnum() or in underscore-a-tilde`). -/
def identChar (c : Char) : Bool := pyIsAlnum c || c = '_' || c = 'ã'

/-- Consumes characters while `p` holds, tracking line/column
(`skip_whitespace` / `skip_newlines`). -/
def skipWhile (p : Char → Bool) : List Char → Nat → Nat → List Char × Nat × Nat
  | [], l, c => ([], l, c)
  | ch :: rest, l, c =>
    if p ch then
      let lc := advancePos ch l c
      skipWhile p rest lc.1 lc.2
    else (ch :: rest, l, c)

/-- Result of one lexer reading helper: accumulated value, remaining input,
updated position, emitted diagnostics (in emission order). -/
structure ReadRes (α : Type) where
  val : α
  rest : List Char
  line : Nat
  col : Nat
  errs : List DSLError
deriving Repr, DecidableEq

/-- The LEX001 diagnostic (string containing a line break). -/
def lex001E (l c : Nat) : DSLError :=
  ⟨.LEXICAL, .ERROR, "LEX001", .stringQuebraLinha, some l, some c,
    some .fecheStringMesmaLinha⟩

/-- The LEX002 diagnostic (string not closed). -/
def lex002E (l c : Nat) : DSLError :=
  ⟨.LEXICAL, .ERROR, "LEX002", .stringNaoFechada, some l, some c,
    some .adicioneAspas⟩

/-- The LEX003 diagnostic (number with several decimal dots). -/
def lex003E (l c : Nat) : DSLError :=
  ⟨.LEXICAL, .ERROR, "LEX003", .numeroMultiplosPontos, some l, some c,
    some .useUmPonto⟩

/-- The LEX005 diagnostic (unrecognized character). -/
def lex005E (ch : Char) (l c : Nat) : DSLError :=
  ⟨.LEXICAL, .ERROR, "LEX005", .caractereNaoReconhecido ch, some l, some c,
    some .verifiqueCaracteres⟩

/-- Body of `read_string` after the opening quote was consumed: accumulate
until the closing quote; a line break aborts the accumulation with LEX001 and
leaves the break unconsumed; a missing closing quote (also in the line-break
case, where the current character is the break, not a quote) adds LEX002.
`sL`/`sC` is the literal's start position. -/
def readStringAux (sL sC : Nat) : List Char → Nat → Nat → String → ReadRes String
  | [], l, c, acc => ⟨acc, [], l, c, [lex002E sL sC]⟩
  | ch :: rest, l, c, acc =>
    if ch = '"' then ⟨acc, rest, l, c + 1, []⟩
    else if ch = '\n' then ⟨acc, ch :: rest, l, c, [lex001E sL sC, lex002E sL sC]⟩
    else readStringAux sL sC rest l (c + 1) (acc.push ch)

/-- Body of `read_number` (the initial digit is consumed by the caller):
digits and at most one dot; a second dot raises LEX003 and stops, leaving the
dot unconsumed.  `dots` is `dot_count` so far. -/
def readNumAux (sL sC : Nat) : Nat → List Char → Nat → Nat → List Char →
    ReadRes (List Char)
  | _, [], l, c, acc => ⟨acc, [], l, c, []⟩
  | dots, ch :: rest, l, c, acc =>
    if ch.isDigit then readNumAux sL sC dots rest l (c + 1) (acc ++ [ch])
    else if ch = '.' then
      if dots + 1 > 1 then ⟨acc, ch :: rest, l, c, [lex003E sL sC]⟩
      else readNumAux sL sC (dots + 1) rest l (c + 1) (acc ++ ['.'])
    else ⟨acc, ch :: rest, l, c, []⟩

/-- Numeric value of the accumulated text: `int(value)` when there is no dot,
`float(value)` otherwise.  The text always parses (it starts with a digit and
holds at most one dot), so the defensive LEX004 branch of the source is
unreachable and this function is total. -/
def digitsVal (ds : List Char) : Nat :=
  ds.foldl (fun n c => 10 * n + (c.toNat - 48)) 0

/-- Exact value of a decimal literal. -/
def fracOfChars (cs : List Char) : Frac :=
  let intPart := cs.takeWhile (fun c => c ≠ '.')
  let rest := cs.dropWhile (fun c => c ≠ '.')
  match rest with
  | [] => ⟨digitsVal intPart, 1⟩
  | _ :: fracPart => ⟨digitsVal intPart * (10 ^ fracPart.length) + digitsVal fracPart,
      10 ^ fracPart.length⟩

/-- Body of `read_identifier` (the initial character is consumed by the
caller). -/
def readIdentAux : List Char → Nat → Nat → String → ReadRes String
  | [], l, c, acc => ⟨acc, [], l, c, []⟩
  | ch :: rest, l, c, acc =>
    if identChar ch then readIdentAux rest l (c + 1) (acc.push ch)
    else ⟨acc, ch :: rest, l, c, []⟩

/-- Keyword table of the lexer (`self.keywords`): exact, case-sensitive. -/
def keywordLookup (s : String) : TokenType :=
  if s = "carteira" then .CARTEIRA
  else if s = "nome" then .NOME
  else if s = "perfil" then .PERFIL
  else if s = "horizonte_temporal" then .HORIZONTE_TEMPORAL
  else if s = "alocação" then .ALOCACAO
  else if s = "restrições" then .RESTRICOES
  else if s = "rebalanceamento" then .REBALANCEAMENTO
  else if s = "ações_nacionais" then .ACOES_NACIONAIS
  else if s = "ações_internacionais" then .ACOES_INTERNACIONAIS
  else if s = "fundos_imobiliarios" then .FUNDOS_IMOBILIARIOS
  else if s = "fundos_multimercado" then .FUNDOS_MULTIMERCADO
  else if s = "renda_fixa" then .RENDA_FIXA
  else if s = "volatilidade_maxima" then .VOLATILIDADE_MAXIMA
  else if s = "taxa_administrativa_maxima" then .TAXA_ADMINISTRATIVA_MAXIMA
  else if s = "setorial" then .SETORIAL
  else if s = "geografico" then .GEOGRAFICO
  else if s = "frequencia" then .FREQUENCIA
  else if s = "tolerancia" then .TOLERANCIA
  else if s = "anos" then .ANOS
  else if s = "meses" then .MESES
  else if s = "trimestral" then .TRIMESTRAL
  else if s = "semestral" then .SEMESTRAL
  else if s = "anual" then .ANUAL
  else if s = "mensal" then .MENSAL
  else .IDENTIFICADOR

/-- Result of dispatching on one character of the main `tokenize` loop. -/
structure StepRes where
  toks : List Token
  errs : List DSLError
  rest : List Char
  line : Nat
  col : Nat
deriving Repr, DecidableEq

/-- One iteration of the `tokenize` loop: dispatch on the current character
`ch` (at position `l`,`c`), with `rest` the input after it. -/
def lexStep (ch : Char) (rest : List Char) (l c : Nat) : StepRes :=
  if isWSChar ch then
    let lc := advancePos ch l c
    let r := skipWhile isWSChar rest lc.1 lc.2
    ⟨[], [], r.1, r.2.1, r.2.2⟩
  else if isNLChar ch then
    let lc := advancePos ch l c
    let r := skipWhile isNLChar rest lc.1 lc.2
    ⟨[], [], r.1, r.2.1, r.2.2⟩
  else if ch = '=' then ⟨[⟨.IGUAL, .str "=", l, c⟩], [], rest, l, c + 1⟩
  else if ch = '\x7b' then ⟨[⟨.CHAVE_ABRE, .str "\x7b", l, c⟩], [], rest, l, c + 1⟩
  else if ch = '\x7d' then ⟨[⟨.CHAVE_FECHA, .str "\x7d", l, c⟩], [], rest, l, c + 1⟩
  else if ch = ';' then ⟨[⟨.PONTO_VIRGULA, .str ";", l, c⟩], [], rest, l, c + 1⟩
  else if ch = '%' then ⟨[⟨.PORCENTAGEM, .str "%", l, c⟩], [], rest, l, c + 1⟩
  else if ch = '"' then
    let r := readStringAux l c rest l (c + 1) ""
    ⟨[⟨.STRING, .str r.val, r.line, r.col⟩], r.errs, r.rest, r.line, r.col⟩
  else if ch.isDigit then
    let r := readNumAux l c 0 rest l (c + 1) [ch]
    ⟨[⟨.NUMERO, .num (fracOfChars r.val), r.line, r.col⟩], r.errs, r.rest,
      r.line, r.col⟩
  else if pyIsAlpha ch || ch = '_' then
    let r := readIdentAux rest l (c + 1) (String.singleton ch)
    ⟨[⟨keywordLookup r.val, .str r.val, r.line, r.col⟩], [], r.rest, r.line, r.col⟩
  else
    let lc := advancePos ch l c
    ⟨[], [lex005E ch l c], rest, lc.1, lc.2⟩

/-- Main loop of `PortfolioLexer.tokenize`.  The fuel argument makes the
recursion structural; every `lexStep` consumes at least the dispatched
character, so `length + 1` fuel is always sufficient (`c9_eof_theorem`). -/
def tokenizeAux : Nat → List Char → Nat → Nat → List Token × List DSLError
  | 0, _, _, _ => ([], [])
  | _ + 1, [], l, c => ([⟨.EOF, .none, l, c⟩], [])
  | fuel + 1, ch :: rest, l, c =>
    let s := lexStep ch rest l c
    let r := tokenizeAux fuel s.rest s.line s.col
    (s.toks ++ r.1, s.errs ++ r.2)

/-- Model of `PortfolioLexer.tokenize`: the token sequence and the lexical
diagnostics, in emission order. -/
def tokenize (cs : List Char) : List Token × List DSLError :=
  tokenizeAux (cs.length + 1) cs 1 1

-- ==========================================================================
-- Parser (`PortfolioParser`)
-- ==========================================================================

/-- Fallback token used only for the (unreachable, `pos < length` invariant)
out-of-range read of the current token. -/
def dummyTok : Token := ⟨.EOF, .none, 0, 0⟩

/-- Parser cursor: the token list and `self.pos`; `current_token` is the token
at `pos`. -/
structure PState where
  tokens : List Token
  pos : Nat
deriving DecidableEq, Repr

/-- The current token (`self.current_token`). -/
def PState.cur (st : PState) : Token := st.tokens.getD st.pos dummyTok

/-- Model of `advance_token`: move to the next token, capped at the last one. -/
def PState.adv (st : PState) : PState :=
  if st.pos < st.tokens.length - 1 then ⟨st.tokens, st.pos + 1⟩ else st

/-- Result of a parsing step: produced value, new cursor, emitted
diagnostics in order. -/
structure StageRes (α : Type) where
  val : α
  st : PState
  errs : List DSLError
deriving Repr, DecidableEq

/-- The SYN001 diagnostic raised by `expect_token` on a mismatch. -/
def syn001E (expected found : TokenType) (l c : Nat) : DSLError :=
  ⟨.SYNTACTIC, .ERROR, "SYN001", .esperadoEncontrado expected found,
    some l, some c, some (.adicioneToken expected)⟩

/-- The SYN999 diagnostic of the internal-fault handler of `parse`. -/
def syn999E : DSLError :=
  ⟨.SYNTACTIC, .ERROR, "SYN999", .erroInternoParser, Option.none, Option.none,
    Option.none⟩

/-- Model of `expect_token`: on a kind mismatch raise SYN001 at the current token and
return no value without consuming it; on a match consume the token (advance,
capped at the end of the list) and return its value. -/
def expectToken (k : TokenType) (st : PState) : StageRes (Option Value) :=
  if st.cur.type ≠ k then
    ⟨Option.none, st, [syn001E k st.cur.type st.cur.line st.cur.column]⟩
  else ⟨some st.cur.value, st.adv, []⟩

/-- Python truthiness of an `expect_token` result (`if not expect(...)`):
false both for "no value" and for a falsy value (empty string, zero, `None`). -/
def optTruthy : Option Value → Bool
  | some v => v.truthy
  | Option.none => false

/-- String content of an optional token value (STRING tokens always carry a
string in this pipeline). -/
def optStr : Option Value → String
  | some (.str s) => s
  | _ => ""

/-- Numeric content of an optional token value (NUMERO tokens always carry a
number in this pipeline). -/
def optNum : Option Value → Frac
  | some (.num q) => q
  | _ => 0

/-- String content of a token value. -/
def Value.getStr : Value → String
  | .str s => s
  | _ => ""

/-- The `configuracoes` dictionary: keys `nome`, `perfil`,
`horizonte_temporal` (the latter's f-string value is modeled as the
amount/unit pair it interpolates). -/
structure Config where
  nome : Option String := Option.none
  perfil : Option String := Option.none
  horizonte : Option (Frac × String) := Option.none
deriving DecidableEq, Repr

/-- The `restricoes` dictionary. -/
structure Restr where
  volatilidade : Option Frac := Option.none
  taxa : Option Frac := Option.none
deriving DecidableEq, Repr

/-- The `rebalanceamento` dictionary. -/
structure Rebal where
  frequencia : Option String := Option.none
  tolerancia : Option Frac := Option.none
deriving DecidableEq, Repr

/-- The allocation: an insertion-ordered mapping from asset identifier text
to percentage. -/
def AllocMap : Type := List (String × Frac)

instance : DecidableEq AllocMap := fun a b =>
  inferInstanceAs (Decidable (@Eq (List (String × Frac)) a b))

/-- Python `dict` assignment `alocacao[k] = v`: overwrite in place, append
new keys at the end. -/
def dictInsert (k : String) (v : Frac) : List (String × Frac) → List (String × Frac)
  | [] => [(k, v)]
  | (k1, v1) :: rest =>
    if k1 = k then (k1, v) :: rest else (k1, v1) :: dictInsert k v rest

/-- Python `dict.get(k, 0)`. -/
def dictGet : List (String × Frac) → String → Frac
  | [], _ => 0
  | (k1, v1) :: rest, k => if k1 = k then v1 else dictGet rest k

/-- The parsed portfolio dictionary returned by `parse_carteira`. -/
structure Doc where
  configuracoes : Config
  alocacao : List (String × Frac)
  restricoes : Restr
  rebalanceamento : Rebal
deriving DecidableEq, Repr

/-- Section loop of `parse_configuracoes`: while the current token is one of
the three configuration keywords, consume it and parse its assignment;
failed expectations skip the field and the loop resynchronizes on the
(unconsumed) current token. -/
def parseConfiguracoes : Nat → PState → Config → StageRes Config
  | 0, st, cfg => ⟨cfg, st, []⟩
  | fuel + 1, st, cfg =>
    if st.cur.type = .NOME then
      let st1 := st.adv
      let r1 := expectToken .IGUAL st1
      if optTruthy r1.val then
        let r2 := expectToken .STRING r1.st
        let cfg1 := if optTruthy r2.val then { cfg with nome := some (optStr r2.val) } else cfg
        let r3 := expectToken .PONTO_VIRGULA r2.st
        let rr := parseConfiguracoes fuel r3.st cfg1
        ⟨rr.val, rr.st, r1.errs ++ r2.errs ++ r3.errs ++ rr.errs⟩
      else
        let rr := parseConfiguracoes fuel r1.st cfg
        ⟨rr.val, rr.st, r1.errs ++ rr.errs⟩
    else if st.cur.type = .PERFIL then
      let st1 := st.adv
      let r1 := expectToken .IGUAL st1
      if optTruthy r1.val then
        let r2 := expectToken .STRING r1.st
        let cfg1 := if optTruthy r2.val then { cfg with perfil := some (optStr r2.val) } else cfg
        let r3 := expectToken .PONTO_VIRGULA r2.st
        let rr := parseConfiguracoes fuel r3.st cfg1
        ⟨rr.val, rr.st, r1.errs ++ r2.errs ++ r3.errs ++ rr.errs⟩
      else
        let rr := parseConfiguracoes fuel r1.st cfg
        ⟨rr.val, rr.st, r1.errs ++ rr.errs⟩
    else if st.cur.type = .HORIZONTE_TEMPORAL then
      let st1 := st.adv
      let r1 := expectToken .IGUAL st1
      if optTruthy r1.val then
        let r2 := expectToken .NUMERO r1.st
        if optTruthy r2.val && (r2.st.cur.type = TokenType.ANOS || r2.st.cur.type = TokenType.MESES) then
          let unidade := r2.st.cur.value
          let st3 := r2.st.adv
          let cfg1 := { cfg with horizonte := some (optNum r2.val, unidade.getStr) }
          let r3 := expectToken .PONTO_VIRGULA st3
          let rr := parseConfiguracoes fuel r3.st cfg1
          ⟨rr.val, rr.st, r1.errs ++ r2.errs ++ r3.errs ++ rr.errs⟩
        else
          let r3 := expectToken .PONTO_VIRGULA r2.st
          let rr := parseConfiguracoes fuel r3.st cfg
          ⟨rr.val, rr.st, r1.errs ++ r2.errs ++ r3.errs ++ rr.errs⟩
      else
        let rr := parseConfiguracoes fuel r1.st cfg
        ⟨rr.val, rr.st, r1.errs ++ rr.errs⟩
    else ⟨cfg, st, []⟩

/-- Asset-class keywords accepted by the `parse_alocacao` loop. -/
def assetTypeKind (t : TokenType) : Bool :=
  t = .ACOES_NACIONAIS || t = .ACOES_INTERNACIONAIS || t = .FUNDOS_IMOBILIARIOS ||
    t = .FUNDOS_MULTIMERCADO || t = .RENDA_FIXA

/-- Asset-assignment loop of `parse_alocacao`.  Note the source's
`if percentage and self.expect_token(PORCENTAGEM):` — when the parsed number
is falsy (failed expectation or literal `0`) the `%` expectation is
short-circuited away and the asset is not recorded. -/
def parseAlocacaoLoop : Nat → PState → List (String × Frac) →
    StageRes (List (String × Frac))
  | 0, st, a => ⟨a, st, []⟩
  | fuel + 1, st, a =>
    if assetTypeKind st.cur.type then
      let assetType := st.cur.value.getStr
      let st1 := st.adv
      let r1 := expectToken .IGUAL st1
      if optTruthy r1.val then
        let r2 := expectToken .NUMERO r1.st
        if optTruthy r2.val then
          let r3 := expectToken .PORCENTAGEM r2.st
          let a1 := if optTruthy r3.val then dictInsert assetType (optNum r2.val) a else a
          let r4 := expectToken .PONTO_VIRGULA r3.st
          let rr := parseAlocacaoLoop fuel r4.st a1
          ⟨rr.val, rr.st, r1.errs ++ r2.errs ++ r3.errs ++ r4.errs ++ rr.errs⟩
        else
          let r4 := expectToken .PONTO_VIRGULA r2.st
          let rr := parseAlocacaoLoop fuel r4.st a
          ⟨rr.val, rr.st, r1.errs ++ r2.errs ++ r4.errs ++ rr.errs⟩
      else
        let rr := parseAlocacaoLoop fuel r1.st a
        ⟨rr.val, rr.st, r1.errs ++ rr.errs⟩
    else ⟨a, st, []⟩

/-- Model of `parse_alocacao`: failing the `alocação` keyword or its opening brace
returns an empty mapping (after raising SYN001); the enclosing
`parse_carteira` still builds a document in that case. -/
def parseAlocacao (fuel : Nat) (st : PState) : StageRes (List (String × Frac)) :=
  let r1 := expectToken .ALOCACAO st
  if !optTruthy r1.val then ⟨[], r1.st, r1.errs⟩
  else
    let r2 := expectToken .CHAVE_ABRE r1.st
    if !optTruthy r2.val then ⟨[], r2.st, r1.errs ++ r2.errs⟩
    else
      let rl := parseAlocacaoLoop fuel r2.st []
      let r3 := expectToken .CHAVE_FECHA rl.st
      ⟨rl.val, r3.st, r1.errs ++ r2.errs ++ rl.errs ++ r3.errs⟩

/-- Field loop of `parse_restricoes` (same `valor and expect(...)`
short-circuit as the allocation loop). -/
def parseRestricoesLoop : Nat → PState → Restr → StageRes Restr
  | 0, st, acc => ⟨acc, st, []⟩
  | fuel + 1, st, acc =>
    if st.cur.type = .VOLATILIDADE_MAXIMA then
      let st1 := st.adv
      let r1 := expectToken .IGUAL st1
      if optTruthy r1.val then
        let r2 := expectToken .NUMERO r1.st
        if optTruthy r2.val then
          let r3 := expectToken .PORCENTAGEM r2.st
          let acc1 := if optTruthy r3.val then { acc with volatilidade := some (optNum r2.val) } else acc
          let r4 := expectToken .PONTO_VIRGULA r3.st
          let rr := parseRestricoesLoop fuel r4.st acc1
          ⟨rr.val, rr.st, r1.errs ++ r2.errs ++ r3.errs ++ r4.errs ++ rr.errs⟩
        else
          let r4 := expectToken .PONTO_VIRGULA r2.st
          let rr := parseRestricoesLoop fuel r4.st acc
          ⟨rr.val, rr.st, r1.errs ++ r2.errs ++ r4.errs ++ rr.errs⟩
      else
        let rr := parseRestricoesLoop fuel r1.st acc
        ⟨rr.val, rr.st, r1.errs ++ rr.errs⟩
    else if st.cur.type = .TAXA_ADMINISTRATIVA_MAXIMA then
      let st1 := st.adv
      let r1 := expectToken .IGUAL st1
      if optTruthy r1.val then
        let r2 := expectToken .NUMERO r1.st
        if optTruthy r2.val then
          let r3 := expectToken .PORCENTAGEM r2.st
          let acc1 := if optTruthy r3.val then { acc with taxa := some (optNum r2.val) } else acc
          let r4 := expectToken .PONTO_VIRGULA r3.st
          let rr := parseRestricoesLoop fuel r4.st acc1
          ⟨rr.val, rr.st, r1.errs ++ r2.errs ++ r3.errs ++ r4.errs ++ rr.errs⟩
        else
          let r4 := expectToken .PONTO_VIRGULA r2.st
          let rr := parseRestricoesLoop fuel r4.st acc
          ⟨rr.val, rr.st, r1.errs ++ r2.errs ++ r4.errs ++ rr.errs⟩
      else
        let rr := parseRestricoesLoop fuel r1.st acc
        ⟨rr.val, rr.st, r1.errs ++ rr.errs⟩
    else ⟨acc, st, []⟩

/-- Model of `parse_restricoes` (the `restrições` keyword was checked by the caller
and is consumed by the leading advance). -/
def parseRestricoes (fuel : Nat) (st : PState) : StageRes Restr :=
  let st1 := st.adv
  let r1 := expectToken .CHAVE_ABRE st1
  if !optTruthy r1.val then ⟨{}, r1.st, r1.errs⟩
  else
    let rl := parseRestricoesLoop fuel r1.st {}
    let r2 := expectToken .CHAVE_FECHA rl.st
    ⟨rl.val, r2.st, r1.errs ++ rl.errs ++ r2.errs⟩

/-- Frequency-value keywords accepted by `parse_rebalanceamento`. -/
def freqKind (t : TokenType) : Bool :=
  t = .TRIMESTRAL || t = .SEMESTRAL || t = .ANUAL || t = .MENSAL

/-- Model of `parse_rebalanceamento` (keyword checked by the caller; no loop: one
optional frequency assignment followed by one optional tolerance
assignment). -/
def parseRebalanceamento (st : PState) : StageRes Rebal :=
  let st0 := st.adv
  let r1 := expectToken .CHAVE_ABRE st0
  if !optTruthy r1.val then ⟨{}, r1.st, r1.errs⟩
  else
    let fr :=
      if r1.st.cur.type = TokenType.FREQUENCIA then
        let st1 := r1.st.adv
        let q1 := expectToken .IGUAL st1
        if optTruthy q1.val then
          if freqKind q1.st.cur.type then
            let frequencia := q1.st.cur.value.getStr
            let st2 := q1.st.adv
            let q2 := expectToken .PONTO_VIRGULA st2
            (⟨(⟨some frequencia, Option.none⟩ : Rebal), q2.st, q1.errs ++ q2.errs⟩ :
              StageRes Rebal)
          else
            let q2 := expectToken .PONTO_VIRGULA q1.st
            ⟨{}, q2.st, q1.errs ++ q2.errs⟩
        else ⟨{}, q1.st, q1.errs⟩
      else ⟨{}, r1.st, []⟩
    let tl :=
      if fr.st.cur.type = TokenType.TOLERANCIA then
        let st1 := fr.st.adv
        let q1 := expectToken .IGUAL st1
        if optTruthy q1.val then
          let q2 := expectToken .NUMERO q1.st
          if optTruthy q2.val then
            let q3 := expectToken .PORCENTAGEM q2.st
            let reb := if optTruthy q3.val then { fr.val with tolerancia := some (optNum q2.val) } else fr.val
            let q4 := expectToken .PONTO_VIRGULA q3.st
            (⟨reb, q4.st, q1.errs ++ q2.errs ++ q3.errs ++ q4.errs⟩ : StageRes Rebal)
          else
            let q4 := expectToken .PONTO_VIRGULA q2.st
            ⟨fr.val, q4.st, q1.errs ++ q2.errs ++ q4.errs⟩
        else ⟨fr.val, q1.st, q1.errs⟩
      else ⟨fr.val, fr.st, []⟩
    let rf := expectToken .CHAVE_FECHA tl.st
    ⟨tl.val, rf.st, r1.errs ++ fr.errs ++ tl.errs ++ rf.errs⟩

/-- Body of `parse_carteira` after its two structural expectations: the four
sections, the (result-discarded) closing-brace expectation, and the document
dictionary — a document is always produced here. -/
def parseCarteiraBody (fuel : Nat) (st : PState) : StageRes Doc :=
  let rc := parseConfiguracoes fuel st {}
  let ra := parseAlocacao fuel rc.st
  let rres :=
    if ra.st.cur.type = TokenType.RESTRICOES then parseRestricoes fuel ra.st
    else (⟨{}, ra.st, []⟩ : StageRes Restr)
  let rreb :=
    if rres.st.cur.type = TokenType.REBALANCEAMENTO then parseRebalanceamento rres.st
    else (⟨{}, rres.st, []⟩ : StageRes Rebal)
  let rf := expectToken .CHAVE_FECHA rreb.st
  ⟨⟨rc.val, ra.val, rres.val, rreb.val⟩, rf.st,
    rc.errs ++ ra.errs ++ rres.errs ++ rreb.errs ++ rf.errs⟩

/-- Model of `parse_carteira`: only the `carteira` keyword and its opening brace are
aborting — their failure yields no document; afterwards a document is always
returned. -/
def parseCarteira (tokens : List Token) : StageRes (Option Doc) :=
  let st : PState := ⟨tokens, 0⟩
  let r1 := expectToken .CARTEIRA st
  if !optTruthy r1.val then ⟨Option.none, r1.st, r1.errs⟩
  else
    let r2 := expectToken .CHAVE_ABRE r1.st
    if !optTruthy r2.val then ⟨Option.none, r2.st, r1.errs ++ r2.errs⟩
    else
      let b := parseCarteiraBody (tokens.length + 1) r2.st
      ⟨some b.val, b.st, r1.errs ++ r2.errs ++ b.errs⟩

/-- Model of `PortfolioParser.parse`: document (or none) plus the syntactic
diagnostics.  An empty token list models the caught `tokens[0]` fault, which
the handler converts into SYN999 with no document. -/
def parse (tokens : List Token) : Option Doc × List DSLError :=
  match tokens with
  | [] => (Option.none, [syn999E])
  | _ :: _ =>
    let r := parseCarteira tokens
    (r.val, r.errs)

/-- Lexer followed by parser on raw text: the document (or none) and all
diagnostics of both stages in collector order. -/
def runPipeline (cs : List Char) : Option Doc × List DSLError :=
  let lr := tokenize cs
  let pr := parse lr.1
  (pr.1, lr.2 ++ pr.2)

-- ==========================================================================
-- Semantic validator (`PortfolioValidator`)
-- ==========================================================================

/-- The SEM001 diagnostic (no/invalid portfolio data). -/
def sem001E : DSLError :=
  ⟨.SEMANTIC, .ERROR, "SEM001", .dadosInvalidos, Option.none, Option.none,
    Option.none⟩

/-- The SEM002 diagnostic (no allocation defined). -/
def sem002E : DSLError :=
  ⟨.SEMANTIC, .ERROR, "SEM002", .nenhumaAlocacao, Option.none, Option.none,
    some .adicioneAtivo⟩

/-- The SEM003 diagnostic (allocation sum exceeds 100%); the suggestion
carries the excess `total - 100` interpolated by the source. -/
def sem003E (total : Frac) : DSLError :=
  ⟨.SEMANTIC, .ERROR, "SEM003", .somaExcede total, Option.none, Option.none,
    some (.reduzaEm (total - 100))⟩

/-- The SEM004 diagnostic (allocation sum falls short of 100%); the
suggestion carries the shortfall `100 - total`. -/
def sem004E (total : Frac) : DSLError :=
  ⟨.SEMANTIC, .ERROR, "SEM004", .somaFalta total, Option.none, Option.none,
    some (.adicioneFalta ((100 : Frac) - total))⟩

/-- The SEM005 diagnostic (percentage outside `[0, 100]`). -/
def sem005E (asset : String) (p : Frac) : DSLError :=
  ⟨.SEMANTIC, .ERROR, "SEM005", .alocacaoForaIntervalo asset p, Option.none,
    Option.none, some .usePercentuais⟩

/-- The SEM007 diagnostic (risk profile not defined) — a Warning. -/
def sem007E : DSLError :=
  ⟨.SEMANTIC, .WARNING, "SEM007", .perfilNaoDefinido, Option.none, Option.none,
    some .definaPerfil⟩

/-- The SEM008 diagnostic (conservative profile over-exposed) — an Error. -/
def sem008E (e : Frac) : DSLError :=
  ⟨.SEMANTIC, .ERROR, "SEM008", .perfilConservadorRisco e, Option.none,
    Option.none, some .reduzaExposicao⟩

/-- The SEM009 diagnostic (moderate profile outside its band) — a Warning. -/
def sem009E (e : Frac) : DSLError :=
  ⟨.SEMANTIC, .WARNING, "SEM009", .perfilModeradoRisco e, Option.none,
    Option.none, some .mantenhaExposicao⟩

/-- The SEM011 diagnostic (aggressive profile under-exposed) — a Warning. -/
def sem011E (e : Frac) : DSLError :=
  ⟨.SEMANTIC, .WARNING, "SEM011", .perfilArrojadoRisco e, Option.none,
    Option.none, some .aumenteExposicao⟩

/-- The SEM013 diagnostic (max volatility out of `[0, 50]`). -/
def sem013E (v : Frac) : DSLError :=
  ⟨.SEMANTIC, .ERROR, "SEM013", .volatilidadeInvalida v, Option.none,
    Option.none, some .useValoresVolatilidade⟩

/-- The SEM018 diagnostic (max management fee out of `[0, 5]`). -/
def sem018E (t : Frac) : DSLError :=
  ⟨.SEMANTIC, .ERROR, "SEM018", .taxaInvalida t, Option.none, Option.none,
    some .useValoresTaxa⟩

/-- Sum of all allocation percentages (`sum(alocacao.values())`). -/
def allocTotal (a : List (String × Frac)) : Frac :=
  a.foldl (fun s p => s + p.2) 0

/-- Diagnostics of `_validate_allocation_sum`: empty allocation raises SEM002
and skips the sum check; otherwise a sum farther than `0.01` from 100 raises
SEM003 (above) or SEM004 (below); within epsilon nothing is raised. -/
def allocSumErrors (d : Doc) : List DSLError :=
  if d.alocacao = [] then [sem002E]
  else
    let total := allocTotal d.alocacao
    if centi < (total - 100).abs then
      if (100 : Frac) < total then [sem003E total] else [sem004E total]
    else []

/-- Diagnostics of `_validate_percentage_ranges`: one SEM005 per entry
strictly outside `[0, 100]`, in allocation order. -/
def rangeErrors : List (String × Frac) → List DSLError
  | [] => []
  | (asset, p) :: rest =>
    (if (0 : Frac) ≤ p ∧ p ≤ 100 then [] else [sem005E asset p]) ++ rangeErrors rest

/-- ASCII lowering, modelling Python's `str.lower` on the profile strings
(which are ASCII). -/
def lowerAscii (s : String) : String := ⟨s.data.map Char.toLower⟩

/-- Risk exposure: the summed percentages of the three high-risk classes, in
the source's order. -/
def riskExposure (d : Doc) : Frac :=
  dictGet d.alocacao "ações_nacionais" + dictGet d.alocacao "ações_internacionais" +
    dictGet d.alocacao "fundos_multimercado"

/-- Diagnostics of `_validate_risk_profile_consistency`: a missing profile
raises only the SEM007 Warning and skips the thresholds; otherwise the
lowercased profile selects one threshold rule (conservative → Error above 30,
moderate → Warning outside `[20, 70]`, aggressive → Warning below 50, any
other string → nothing). -/
def profileErrors (d : Doc) : List DSLError :=
  match d.configuracoes.perfil with
  | Option.none => [sem007E]
  | some pv =>
    let profile := lowerAscii pv
    let e := riskExposure d
    if profile = "conservador" then
      if (30 : Frac) < e then [sem008E e] else []
    else if profile = "moderado" then
      if e < 20 ∨ (70 : Frac) < e then [sem009E e] else []
    else if profile = "arrojado" then
      if e < 50 then [sem011E e] else []
    else []

/-- Diagnostics of `_validate_restrictions`: bounds checks on the two
optional restriction fields, each independent of the other. -/
def restrictionErrors (d : Doc) : List DSLError :=
  (match d.restricoes.volatilidade with
   | some v => if v < 0 ∨ (50 : Frac) < v then [sem013E v] else []
   | Option.none => []) ++
  (match d.restricoes.taxa with
   | some t => if t < 0 ∨ (5 : Frac) < t then [sem018E t] else []
   | Option.none => [])

/-- All diagnostics raised by one `validate` call on a document, in the fixed
check order of the source. -/
def validateErrors (d : Doc) : List DSLError :=
  allocSumErrors d ++ rangeErrors d.alocacao ++ profileErrors d ++
    restrictionErrors d

/-- The Error-severity diagnostics of a list. -/
def errOnly (es : List DSLError) : List DSLError :=
  es.filter fun e =>
    match e.severity with
    | .ERROR => true
    | _ => false

/-- Model of `PortfolioValidator.validate`: a missing document raises SEM001 and
returns false; otherwise the four checks run unconditionally into the shared
collector `col` and the verdict is `not has_errors()` of that collector —
including any errors it already held. -/
def validate (data : Option Doc) (col : ErrColl) : ErrColl × Bool :=
  match data with
  | Option.none => (col.add sem001E, false)
  | some d =>
    let c := (validateErrors d).foldl ErrColl.add col
    (c, !c.hasErrors)

-- ==========================================================================
-- Concrete inputs and documents used by the claim theorems
-- ==========================================================================

/-- Source text `carteira \x7b \x7d`: a portfolio with no allocation section
at all. -/
def c1Text : List Char := "carteira \x7b \x7d".data

/-- Document with a well-formed 100% allocation and a consistent moderate
profile: validation raises no diagnostic at all on it. -/
def cleanDoc : Doc :=
  ⟨⟨Option.none, some "moderado", Option.none⟩,
    [("ações_nacionais", 50), ("renda_fixa", 50)], {}, {}⟩

/-- Collector already holding one lexical Error from an earlier stage. -/
def preloadedColl : ErrColl := ErrColl.empty.add (lex005E '#' 1 1)

/-- Document with the claim C3 example allocation (sum 110). -/
def sumExcessDoc : Doc :=
  ⟨⟨Option.none, Option.none, Option.none⟩,
    [("ações_nacionais", 50), ("renda_fixa", 60)], {}, {}⟩

/-- Document with a conservative profile and risk exposure 40. -/
def conservadorDoc : Doc :=
  ⟨⟨Option.none, some "conservador", Option.none⟩,
    [("ações_nacionais", 40), ("renda_fixa", 60)], {}, {}⟩

/-- Parser state sitting on the final token of its sequence, with a matching
`;` token. -/
def c5State : PState := ⟨[⟨.PONTO_VIRGULA, .str ";", 1, 1⟩], 0⟩

/-- Source text of the spec's syntax-recovery test: `nome = "X"` missing its
terminator, immediately followed by a `perfil` assignment, then a complete
allocation section. -/
def c6Text : List Char :=
  "carteira \x7b\nnome = \"X\"\nperfil = \"moderado\";\nalocação \x7b\nrenda_fixa = 100%;\n\x7d\n\x7d".data

/-- Second syntax-recovery exemplar: the assignment missing its terminator
is followed by a `horizonte_temporal` assignment instead. -/
def c6TextB : List Char :=
  "carteira \x7b\nnome = \"Y\"\nhorizonte_temporal = 10 anos;\nalocação \x7b\nrenda_fixa = 100%;\n\x7d\n\x7d".data

/-- Token shape of a configuration section in which a `nome` assignment lacks
its `;` terminator and is immediately followed by a `perfil` assignment: the
name and profile strings, every token position, and all following tokens are
arbitrary. -/
def c6Tokens (nm pv : String) (q1 q2 q3 q4 q5 q6 q7 : Nat × Nat)
    (rest : List Token) : List Token :=
  ⟨.NOME, .str "nome", q1.1, q1.2⟩ :: ⟨.IGUAL, .str "=", q2.1, q2.2⟩ ::
  ⟨.STRING, .str nm, q3.1, q3.2⟩ :: ⟨.PERFIL, .str "perfil", q4.1, q4.2⟩ ::
  ⟨.IGUAL, .str "=", q5.1, q5.2⟩ :: ⟨.STRING, .str pv, q6.1, q6.2⟩ ::
  ⟨.PONTO_VIRGULA, .str ";", q7.1, q7.2⟩ :: rest


/-- Document with the claim C7 example allocation: 150 and -50, summing to
exactly 100. -/
def rangeDoc : Doc :=
  ⟨⟨Option.none, Option.none, Option.none⟩,
    [("ações_internacionais", 150), ("renda_fixa", ⟨-50, 1⟩)], {}, {}⟩

/-- Source text whose string literal encloses a line break and is never
closed. -/
def c8Text : List Char := "\"a\nb".data

/-- Source text with a syntactically well-formed asset assignment whose
numeric literal is 0 (`renda_fixa = 0%;`). -/
def zeroAssetText : List Char :=
  "carteira \x7b\nalocação \x7b\nrenda_fixa = 0%;\n\x7d\n\x7d".data

/-- Source text with a horizon assignment of amount 0 (`horizonte_temporal =
0 anos;`). -/
def zeroHorizonText : List Char :=
  "carteira \x7b\nhorizonte_temporal = 0 anos;\nalocação \x7b\nrenda_fixa = 100%;\n\x7d\n\x7d".data

/-- Token shape of an asset assignment whose numeric literal is zero
(`asset = 0%;`): the asset keyword and identifier text, every token position,
the literal's denominator, and all following tokens are arbitrary. -/
def c10Tokens (astr : String) (atype : TokenType) (q1 q2 q3 q4 q5 : Nat × Nat)
    (d : Nat) (rest : List Token) : List Token :=
  ⟨atype, .str astr, q1.1, q1.2⟩ :: ⟨.IGUAL, .str "=", q2.1, q2.2⟩ ::
  ⟨.NUMERO, .num ⟨0, d⟩, q3.1, q3.2⟩ :: ⟨.PORCENTAGEM, .str "%", q4.1, q4.2⟩ ::
  ⟨.PONTO_VIRGULA, .str ";", q5.1, q5.2⟩ :: rest


-- ==========================================================================
-- Theorems
-- ==========================================================================

/-- Claim C1 is refuted on this input: the allocation section's keyword is
missing (`carteira \x7b \x7d`), the claim demands "no document", yet the
parse returns a populated document with an empty allocation, raising only
the SYN001 expectation failure for `alocação`. -/
theorem c1_counterexample :
    (runPipeline c1Text).1 = some ⟨{}, [], {}, {}⟩ ∧
    (runPipeline c1Text).2 = [syn001E .ALOCACAO .CHAVE_FECHA 1 12] := by
  constructor <;> rfl

/-- Claim C1 (amended): for every nonempty token sequence whose `carteira`
and opening-brace tokens carry their (truthy) lexer values, the parse
returns no document exactly when the first token is not the `carteira`
keyword or the second is not the opening brace; every other failed
expectation — including the allocation section's keyword/braces and the
closing brace — still yields a populated document. -/
theorem c1_amended_theorem (ts : List Token) (hne : ts ≠ [])
    (hcanon : ∀ t ∈ ts, (t.type = TokenType.CARTEIRA → t.value.truthy) ∧
      (t.type = TokenType.CHAVE_ABRE → t.value.truthy)) :
    (parse ts).1 = Option.none ↔
      ((ts.getD 0 dummyTok).type ≠ TokenType.CARTEIRA ∨
        (ts.getD 1 dummyTok).type ≠ TokenType.CHAVE_ABRE) := by
  match ts, hne with
  | t0 :: rest, _ =>
    have h0 := hcanon t0 (by simp)
    by_cases hc : t0.type = TokenType.CARTEIRA
    · have htr : t0.value.truthy = true := h0.1 hc
      match rest with
      | [] =>
        simp [parse, parseCarteira, expectToken, PState.cur, PState.adv,
          optTruthy, List.getD, hc, htr, dummyTok]
      | t1 :: rest1 =>
        have h1 := hcanon t1 (by simp)
        by_cases hb : t1.type = TokenType.CHAVE_ABRE
        · have htr1 : t1.value.truthy = true := h1.2 hb
          simp [parse, parseCarteira, expectToken, PState.cur, PState.adv,
            optTruthy, List.getD, hc, htr, hb, htr1]
        · simp [parse, parseCarteira, expectToken, PState.cur, PState.adv,
            optTruthy, List.getD, hc, htr, hb]
    · simp [parse, parseCarteira, expectToken, PState.cur, optTruthy,
        List.getD, hc]

/-- Witness for `c1_amended_theorem` at a concrete sequence (the tokens of
`carteira \x7b \x7d`): the two structural tokens match, so a document is
produced. -/
theorem c1_witness : (parse (tokenize c1Text).1).1 ≠ Option.none := by
  intro hnone
  have h := c1_amended_theorem (tokenize c1Text).1 (by decide) (by decide)
  have hr := h.mp hnone
  revert hr
  decide

/-- On nonzero denominators, `Frac.add` is exact rational addition. -/
theorem Frac.toRat_add (a b : Frac) (ha : a.den ≠ 0) (hb : b.den ≠ 0) :
    (a + b).toRat = a.toRat + b.toRat := by
  show (Frac.add a b).toRat = _
  unfold Frac.toRat Frac.add
  have ha2 : (a.den : ℚ) ≠ 0 := Nat.cast_ne_zero.mpr ha
  have hb2 : (b.den : ℚ) ≠ 0 := Nat.cast_ne_zero.mpr hb
  field_simp
  try ring

/-- On nonzero denominators, `Frac.sub` is exact rational subtraction. -/
theorem Frac.toRat_sub (a b : Frac) (ha : a.den ≠ 0) (hb : b.den ≠ 0) :
    (a - b).toRat = a.toRat - b.toRat := by
  show (Frac.sub a b).toRat = _
  unfold Frac.toRat Frac.sub
  have ha2 : (a.den : ℚ) ≠ 0 := Nat.cast_ne_zero.mpr ha
  have hb2 : (b.den : ℚ) ≠ 0 := Nat.cast_ne_zero.mpr hb
  field_simp
  try ring

/-- On positive denominators, the `Frac` order is the rational order. -/
theorem Frac.lt_iff_toRat (a b : Frac) (ha : 0 < a.den) (hb : 0 < b.den) :
    a < b ↔ a.toRat < b.toRat := by
  show Frac.lt a b ↔ _
  unfold Frac.lt Frac.toRat
  have ha2 : (0 : ℚ) < (a.den : ℚ) := by exact_mod_cast ha
  have hb2 : (0 : ℚ) < (b.den : ℚ) := by exact_mod_cast hb
  rw [div_lt_div_iff₀ ha2 hb2]
  exact_mod_cast Iff.rfl

/-- On positive denominators, the non-strict `Frac` order is the rational
order. -/
theorem Frac.le_iff_toRat (a b : Frac) (ha : 0 < a.den) (hb : 0 < b.den) :
    a ≤ b ↔ a.toRat ≤ b.toRat := by
  show Frac.le a b ↔ _
  unfold Frac.le Frac.toRat
  have ha2 : (0 : ℚ) < (a.den : ℚ) := by exact_mod_cast ha
  have hb2 : (0 : ℚ) < (b.den : ℚ) := by exact_mod_cast hb
  rw [div_le_div_iff₀ ha2 hb2]
  exact_mod_cast Iff.rfl

/-- Lemma: `Frac.abs` is the rational absolute value. -/
theorem Frac.toRat_abs (a : Frac) : a.abs.toRat = |a.toRat| := by
  unfold Frac.abs Frac.toRat
  rw [abs_div, abs_of_nonneg (show (0 : ℚ) ≤ (a.den : ℚ) from by positivity)]
  congr 1
  simp [Int.cast_natAbs, Int.cast_abs]

/-- A decimal literal's value has a positive (power-of-ten) denominator. -/
theorem fracOfChars_den_pos (cs : List Char) : 0 < (fracOfChars cs).den := by
  simp only [fracOfChars]
  split
  · exact Nat.one_pos
  · positivity

/-- Lemma: `Frac` addition and subtraction preserve denominator positivity, so every
number flowing through the pipeline keeps a positive denominator. -/
theorem Frac.den_add_pos (a b : Frac) (ha : 0 < a.den) (hb : 0 < b.den) :
    0 < (a + b).den ∧ 0 < (a - b).den :=
  ⟨Nat.mul_pos ha hb, Nat.mul_pos ha hb⟩

/-- Appending one diagnostic touches only the bucket of its severity. -/
theorem errColl_add_errors (col : ErrColl) (e : DSLError) :
    (col.add e).errors =
      col.errors ++ (if e.severity = ErrorSeverity.ERROR then [e] else []) := by
  cases h : e.severity <;> simp [ErrColl.add, h]

/-- Folding diagnostics into a collector appends exactly their Error-severity
sublist to the error bucket. -/
theorem foldl_add_errors (es : List DSLError) (col : ErrColl) :
    (es.foldl ErrColl.add col).errors = col.errors ++ errOnly es := by
  induction es generalizing col with
  | nil => simp [errOnly]
  | cons e es ih =>
    rw [List.foldl_cons, ih, errColl_add_errors]
    cases h : e.severity <;> simp [errOnly, List.filter_cons, h]

/-- Claim C2 is refuted on this input: `cleanDoc` makes validation raise no
Error-severity diagnostic at all, yet `validate` returns false because the
shared collector already held an Error from an earlier stage. -/
theorem c2_counterexample :
    (validate (some cleanDoc) preloadedColl).2 = false ∧
    errOnly (validateErrors cleanDoc) = [] := by
  constructor <;> rfl

/-- Claim C2 (amended): `validate` on a document returns true iff the shared
collector ends with zero Error-severity diagnostics — that is, iff it held
none before *and* validation raised none; Warning- and Info-severity
diagnostics never affect the verdict. -/
theorem c2_verdict_theorem (d : Doc) (col : ErrColl) :
    (validate (some d) col).2 = true ↔
      (col.errors = [] ∧ errOnly (validateErrors d) = []) := by
  show (!((validateErrors d).foldl ErrColl.add col).hasErrors) = true ↔ _
  rw [ErrColl.hasErrors, foldl_add_errors]
  simp

/-- Claim C3: the allocation-sum check raises exactly one SEM002 Error on an
empty allocation (skipping the sum test); otherwise it raises exactly one
SEM003 Error when the sum exceeds 100 by more than 0.01 (its suggestion
carrying the excess `total - 100`, see `sem003E`), exactly one SEM004 Error
when it falls short by more than 0.01, and nothing when the sum is within
0.01 of 100. -/
theorem c3_sum_theorem (d : Doc) :
    (d.alocacao = [] → allocSumErrors d = [sem002E]) ∧
    (d.alocacao ≠ [] →
      (centi < (allocTotal d.alocacao - 100).abs →
        (((100 : Frac) < allocTotal d.alocacao →
            allocSumErrors d = [sem003E (allocTotal d.alocacao)]) ∧
          (¬ (100 : Frac) < allocTotal d.alocacao →
            allocSumErrors d = [sem004E (allocTotal d.alocacao)]))) ∧
      (¬ centi < (allocTotal d.alocacao - 100).abs → allocSumErrors d = [])) := by
  constructor
  · intro h
    simp [allocSumErrors, h]
  · intro h
    refine ⟨fun hfar => ⟨fun hgt => ?_, fun hle => ?_⟩, fun hnear => ?_⟩
    · simp [allocSumErrors, h, hfar, hgt]
    · simp [allocSumErrors, h, hfar, hle]
    · simp [allocSumErrors, h, hnear]

/-- Witness for `c3_sum_theorem` at the claim's own example: allocation
`ações_nacionais 50, renda_fixa 60` (sum 110) raises the SEM003 Error whose
suggestion carries the excess 10. -/
theorem c3_witness :
    allocSumErrors sumExcessDoc = [sem003E 110] ∧
    (sem003E 110).suggestion = some (Sugg.reduzaEm 10) := by
  constructor
  · have h :=
      (((c3_sum_theorem sumExcessDoc).2 (by decide)).1 (by decide)).1 (by decide)
    rw [h]
    decide
  · decide

/-- Claim C4: the risk-profile check — a missing profile raises exactly the
SEM007 Warning and skips every threshold; with a profile present, the
lowercased string selects at most one rule: conservative raises the SEM008
Error iff exposure exceeds 30, moderate raises the SEM009 Warning (an Error
never, see `sem009E`) iff exposure leaves `[20, 70]`, aggressive raises the
SEM011 Warning iff exposure is below 50, and any other string raises
nothing. -/
theorem c4_profile_theorem (d : Doc) :
    (d.configuracoes.perfil = Option.none → profileErrors d = [sem007E]) ∧
    (∀ p, d.configuracoes.perfil = some p →
      ((lowerAscii p = "conservador" →
          ((30 : Frac) < riskExposure d → profileErrors d = [sem008E (riskExposure d)]) ∧
          (¬ (30 : Frac) < riskExposure d → profileErrors d = [])) ∧
        (lowerAscii p = "moderado" →
          (riskExposure d < 20 ∨ (70 : Frac) < riskExposure d →
              profileErrors d = [sem009E (riskExposure d)]) ∧
          (¬ (riskExposure d < 20 ∨ (70 : Frac) < riskExposure d) →
              profileErrors d = [])) ∧
        (lowerAscii p = "arrojado" →
          (riskExposure d < 50 → profileErrors d = [sem011E (riskExposure d)]) ∧
          (¬ riskExposure d < 50 → profileErrors d = [])) ∧
        (lowerAscii p ≠ "conservador" → lowerAscii p ≠ "moderado" →
          lowerAscii p ≠ "arrojado" → profileErrors d = []))) := by
  constructor
  · intro h
    simp [profileErrors, h]
  · intro p hp
    refine ⟨fun hcons => ?_, fun hmod => ?_, fun harr => ?_,
      fun h1 h2 h3 => ?_⟩
    · constructor <;> intro hexp <;> simp [profileErrors, hp, hcons, hexp]
    · constructor <;> intro hexp <;> simp [profileErrors, hp, hmod, hexp]
    · constructor <;> intro hexp <;> simp [profileErrors, hp, harr, hexp]
    · simp [profileErrors, hp, h1, h2, h3]

/-- Witness for `c4_profile_theorem`: a conservative profile with exposure 40
raises exactly the SEM008 Error. -/
theorem c4_witness : profileErrors conservadorDoc = [sem008E 40] := by
  have h :=
    ((((c4_profile_theorem conservadorDoc).2 "conservador" rfl).1 (by decide)).1)
      (by decide)
  rw [h]
  decide

/-- Claim C5 is refuted at a parser state sitting on the final token of its
sequence: the current `;` token matches the expected kind and its value is
returned with no diagnostic, yet the cursor does not move (the returned state
is the input state itself), so the matching token is not consumed. -/
theorem c5_counterexample :
    expectToken TokenType.PONTO_VIRGULA c5State =
      StageRes.mk (some (Value.str ";")) c5State [] := by
  rfl

/-- Claim C5 (amended): `expect(kind)` with a non-matching current token
raises exactly one SYN001 Syntactic/Error naming the expected and found
kinds at the current token's position with an insert-the-token suggestion
(see `syn001E`), returns no value and leaves the state unchanged; with a
matching current token it raises no diagnostic, returns the token's value,
and advances the cursor — except when the cursor already sits on the final
token, where it stays in place. -/
theorem c5_expect_theorem (k : TokenType) (st : PState) :
    (st.cur.type ≠ k →
      expectToken k st =
        StageRes.mk Option.none st [syn001E k st.cur.type st.cur.line st.cur.column]) ∧
    (st.cur.type = k →
      expectToken k st =
        StageRes.mk (some st.cur.value)
          ⟨st.tokens, if st.pos < st.tokens.length - 1 then st.pos + 1 else st.pos⟩
          []) := by
  constructor
  · intro h
    simp [expectToken, h]
  · intro h
    simp only [expectToken, h, ne_eq, not_true_eq_false, if_false, ite_not]
    cases st with
    | mk toks pos =>
      by_cases hp : pos < toks.length - 1 <;> simp [PState.adv, hp]

/-- Witness for `c5_expect_theorem`: a mismatching expectation at the
concrete state yields the SYN001 diagnostic and an unchanged state. -/
theorem c5_witness :
    expectToken TokenType.NOME c5State =
      StageRes.mk Option.none c5State
        [syn001E TokenType.NOME TokenType.PONTO_VIRGULA 1 1] := by
  have h := (c5_expect_theorem TokenType.NOME c5State).1 (by decide)
  rw [h]
  decide

/-- Cursor advance at a position at least two slots from the end moves one
slot right. -/
theorem adv_in_range (toks : List Token) (pos : Nat) (h : pos + 2 ≤ toks.length) :
    (⟨toks, pos⟩ : PState).adv = ⟨toks, pos + 1⟩ := by
  unfold PState.adv
  dsimp only
  rw [if_pos (by omega)]

/-- The configuration loop exits immediately (with any fuel) when the current
token is none of its three keywords. -/
theorem parseConfiguracoes_exit (fuel : Nat) (st : PState) (cfg : Config)
    (h1 : st.cur.type ≠ TokenType.NOME) (h2 : st.cur.type ≠ TokenType.PERFIL)
    (h3 : st.cur.type ≠ TokenType.HORIZONTE_TEMPORAL) :
    parseConfiguracoes fuel st cfg = StageRes.mk cfg st [] := by
  have g1 : (st.cur.type = TokenType.NOME) = False := by
    simp only [eq_iff_iff, iff_false]
    exact h1
  have g2 : (st.cur.type = TokenType.PERFIL) = False := by
    simp only [eq_iff_iff, iff_false]
    exact h2
  have g3 : (st.cur.type = TokenType.HORIZONTE_TEMPORAL) = False := by
    simp only [eq_iff_iff, iff_false]
    exact h3
  cases fuel with
  | zero => rfl
  | succ n => simp only [parseConfiguracoes, g1, g2, g3, if_false, ite_false]

/-- Second recovery iteration: with the cursor on the `perfil` keyword left
unconsumed by the failed `;` expectation, the loop parses the profile
assignment without any diagnostic and hands the state after the `;` to the
rest of the loop. -/
theorem c6_iter2 (nm pv : String) (hpv2 : (!pv.isEmpty) = true)
    (q1 q2 q3 q4 q5 q6 q7 : Nat × Nat) (rest : List Token) (g : Nat)
    (stL : PState) (hAdv : ((⟨c6Tokens nm pv q1 q2 q3 q4 q5 q6 q7 rest, 6⟩ : PState)).adv = stL)
    (hrec : parseConfiguracoes g stL (⟨some nm, some pv, Option.none⟩ : Config) =
      StageRes.mk (⟨some nm, some pv, Option.none⟩ : Config) stL []) :
    parseConfiguracoes (g + 1) ⟨c6Tokens nm pv q1 q2 q3 q4 q5 q6 q7 rest, 3⟩ ⟨some nm, Option.none, Option.none⟩ =
      StageRes.mk (⟨some nm, some pv, Option.none⟩ : Config) stL [] := by
  have hlen : (c6Tokens nm pv q1 q2 q3 q4 q5 q6 q7 rest).length = rest.length + 7 := by simp [c6Tokens]
  have eCur3 : ((⟨c6Tokens nm pv q1 q2 q3 q4 q5 q6 q7 rest, 3⟩ : PState)).cur =
      ⟨.PERFIL, .str "perfil", q4.1, q4.2⟩ := rfl
  have eAdv3 : ((⟨c6Tokens nm pv q1 q2 q3 q4 q5 q6 q7 rest, 3⟩ : PState)).adv = ⟨c6Tokens nm pv q1 q2 q3 q4 q5 q6 q7 rest, 4⟩ :=
    adv_in_range _ _ (by omega)
  have eAdv4 : ((⟨c6Tokens nm pv q1 q2 q3 q4 q5 q6 q7 rest, 4⟩ : PState)).adv = ⟨c6Tokens nm pv q1 q2 q3 q4 q5 q6 q7 rest, 5⟩ :=
    adv_in_range _ _ (by omega)
  have eAdv5 : ((⟨c6Tokens nm pv q1 q2 q3 q4 q5 q6 q7 rest, 5⟩ : PState)).adv = ⟨c6Tokens nm pv q1 q2 q3 q4 q5 q6 q7 rest, 6⟩ :=
    adv_in_range _ _ (by omega)
  have e4 : expectToken .IGUAL ⟨c6Tokens nm pv q1 q2 q3 q4 q5 q6 q7 rest, 4⟩ =
      StageRes.mk (some (Value.str "=")) ⟨c6Tokens nm pv q1 q2 q3 q4 q5 q6 q7 rest, 5⟩ [] := by
    unfold expectToken
    rw [if_neg (fun hh => hh rfl)]
    rw [eAdv4]
    rfl
  have e5 : expectToken .STRING ⟨c6Tokens nm pv q1 q2 q3 q4 q5 q6 q7 rest, 5⟩ =
      StageRes.mk (some (Value.str pv)) ⟨c6Tokens nm pv q1 q2 q3 q4 q5 q6 q7 rest, 6⟩ [] := by
    unfold expectToken
    rw [if_neg (fun hh => hh rfl)]
    rw [eAdv5]
    rfl
  have e6 : expectToken .PONTO_VIRGULA ⟨c6Tokens nm pv q1 q2 q3 q4 q5 q6 q7 rest, 6⟩ =
      StageRes.mk (some (Value.str ";")) stL [] := by
    unfold expectToken
    rw [if_neg (fun hh => hh rfl)]
    rw [hAdv]
    rfl
  have hTpv : optTruthy (some (Value.str pv)) = true := by
    simp only [optTruthy, Value.truthy]
    exact hpv2
  have hTeq : optTruthy (some (Value.str "=")) = true := by decide
  simp only [parseConfiguracoes, eCur3, eAdv3, e4, e5, e6, hTeq, hTpv, optStr,
    hrec, reduceCtorEq, eq_self_iff_true, if_true, if_false, ite_true, ite_false,
    List.nil_append, List.append_nil]

/-- First recovery iteration: the `nome` assignment missing its `;` records
the name, raises exactly the one expected-`;` diagnostic at the following
`perfil` token, and leaves that token unconsumed for the next iteration. -/
theorem c6_iter1 (nm pv : String) (hnm2 : (!nm.isEmpty) = true)
    (q1 q2 q3 q4 q5 q6 q7 : Nat × Nat) (rest : List Token) (g : Nat)
    (stL : PState)
    (hrec : parseConfiguracoes g ⟨c6Tokens nm pv q1 q2 q3 q4 q5 q6 q7 rest, 3⟩
        (⟨some nm, Option.none, Option.none⟩ : Config) =
      StageRes.mk (⟨some nm, some pv, Option.none⟩ : Config) stL []) :
    parseConfiguracoes (g + 1) ⟨c6Tokens nm pv q1 q2 q3 q4 q5 q6 q7 rest, 0⟩ {} =
      StageRes.mk (⟨some nm, some pv, Option.none⟩ : Config) stL
        [syn001E TokenType.PONTO_VIRGULA TokenType.PERFIL q4.1 q4.2] := by
  have hlen : (c6Tokens nm pv q1 q2 q3 q4 q5 q6 q7 rest).length = rest.length + 7 := by simp [c6Tokens]
  have eCur0 : ((⟨c6Tokens nm pv q1 q2 q3 q4 q5 q6 q7 rest, 0⟩ : PState)).cur =
      ⟨.NOME, .str "nome", q1.1, q1.2⟩ := rfl
  have eAdv0 : ((⟨c6Tokens nm pv q1 q2 q3 q4 q5 q6 q7 rest, 0⟩ : PState)).adv = ⟨c6Tokens nm pv q1 q2 q3 q4 q5 q6 q7 rest, 1⟩ :=
    adv_in_range _ _ (by omega)
  have eAdv1 : ((⟨c6Tokens nm pv q1 q2 q3 q4 q5 q6 q7 rest, 1⟩ : PState)).adv = ⟨c6Tokens nm pv q1 q2 q3 q4 q5 q6 q7 rest, 2⟩ :=
    adv_in_range _ _ (by omega)
  have eAdv2 : ((⟨c6Tokens nm pv q1 q2 q3 q4 q5 q6 q7 rest, 2⟩ : PState)).adv = ⟨c6Tokens nm pv q1 q2 q3 q4 q5 q6 q7 rest, 3⟩ :=
    adv_in_range _ _ (by omega)
  have e1 : expectToken .IGUAL ⟨c6Tokens nm pv q1 q2 q3 q4 q5 q6 q7 rest, 1⟩ =
      StageRes.mk (some (Value.str "=")) ⟨c6Tokens nm pv q1 q2 q3 q4 q5 q6 q7 rest, 2⟩ [] := by
    unfold expectToken
    rw [if_neg (fun hh => hh rfl)]
    rw [eAdv1]
    rfl
  have e2 : expectToken .STRING ⟨c6Tokens nm pv q1 q2 q3 q4 q5 q6 q7 rest, 2⟩ =
      StageRes.mk (some (Value.str nm)) ⟨c6Tokens nm pv q1 q2 q3 q4 q5 q6 q7 rest, 3⟩ [] := by
    unfold expectToken
    rw [if_neg (fun hh => hh rfl)]
    rw [eAdv2]
    rfl
  have e3 : expectToken .PONTO_VIRGULA ⟨c6Tokens nm pv q1 q2 q3 q4 q5 q6 q7 rest, 3⟩ =
      StageRes.mk Option.none ⟨c6Tokens nm pv q1 q2 q3 q4 q5 q6 q7 rest, 3⟩
        [syn001E .PONTO_VIRGULA .PERFIL q4.1 q4.2] := by
    unfold expectToken
    rw [if_pos (fun hh => nomatch hh)]
    rfl
  have hTnm : optTruthy (some (Value.str nm)) = true := by
    simp only [optTruthy, Value.truthy]
    exact hnm2
  have hTeq : optTruthy (some (Value.str "=")) = true := by decide
  simp only [parseConfiguracoes, eCur0, eAdv0, e1, e2, e3, hTeq, hTnm, optStr,
    hrec, reduceCtorEq, eq_self_iff_true, if_true, if_false, ite_true, ite_false,
    List.nil_append, List.append_nil]


/-- Claim C6: in a configuration section where a `nome = "..."` assignment
omits its `;` terminator and is immediately followed by a `perfil`
assignment — for every name and profile string, every choice of token
positions, and every continuation whose first token is not another
configuration keyword — the parser raises exactly one Syntactic/Error (the
expected-`;` SYN001 at the `perfil` token) and still records both the name
and the profile; moreover, on the spec's two concrete exemplar texts the
whole pipeline raises exactly that one diagnostic and parses the rest of the
document intact. -/
theorem c6_recovery_theorem :
    (∀ (nm pv : String), nm ≠ "" → pv ≠ "" →
      ∀ (q1 q2 q3 q4 q5 q6 q7 : Nat × Nat) (rest : List Token),
      (rest.getD 0 dummyTok).type ≠ TokenType.NOME →
      (rest.getD 0 dummyTok).type ≠ TokenType.PERFIL →
      (rest.getD 0 dummyTok).type ≠ TokenType.HORIZONTE_TEMPORAL →
      ∀ f : Nat,
      (parseConfiguracoes (f + 3)
          ⟨c6Tokens nm pv q1 q2 q3 q4 q5 q6 q7 rest, 0⟩ {}).val =
        ⟨some nm, some pv, Option.none⟩ ∧
      (parseConfiguracoes (f + 3)
          ⟨c6Tokens nm pv q1 q2 q3 q4 q5 q6 q7 rest, 0⟩ {}).errs =
        [syn001E TokenType.PONTO_VIRGULA TokenType.PERFIL q4.1 q4.2]) ∧
    (runPipeline c6Text).2 =
      [syn001E TokenType.PONTO_VIRGULA TokenType.PERFIL 3 7] ∧
    (runPipeline c6Text).1 =
      some ⟨⟨some "X", some "moderado", Option.none⟩, [("renda_fixa", 100)],
        {}, {}⟩ ∧
    (runPipeline c6TextB).2 =
      [syn001E TokenType.PONTO_VIRGULA TokenType.HORIZONTE_TEMPORAL 3 19] ∧
    (runPipeline c6TextB).1 =
      some ⟨⟨some "Y", Option.none, some (10, "anos")⟩, [("renda_fixa", 100)],
        {}, {}⟩ := by
  refine ⟨?_, by rfl, by rfl, by rfl, by rfl⟩
  intro nm pv hnm hpv q1 q2 q3 q4 q5 q6 q7 rest h1 h2 h3 f
  have hlen : (c6Tokens nm pv q1 q2 q3 q4 q5 q6 q7 rest).length = rest.length + 7 := by simp [c6Tokens]
  have hnm2 : (!nm.isEmpty) = true := by
    cases h : nm.isEmpty with
    | false => rfl
    | true => exact absurd ((String.isEmpty_iff nm).mp h) hnm
  have hpv2 : (!pv.isEmpty) = true := by
    cases h : pv.isEmpty with
    | false => rfl
    | true => exact absurd ((String.isEmpty_iff pv).mp h) hpv
  have hstep : ∃ stL : PState,
      ((⟨c6Tokens nm pv q1 q2 q3 q4 q5 q6 q7 rest, 6⟩ : PState)).adv = stL ∧
      stL.cur.type ≠ TokenType.NOME ∧ stL.cur.type ≠ TokenType.PERFIL ∧
      stL.cur.type ≠ TokenType.HORIZONTE_TEMPORAL := by
    rcases rest with _ | ⟨r0, rest1⟩
    · refine ⟨⟨c6Tokens nm pv q1 q2 q3 q4 q5 q6 q7 ([] : List Token), 6⟩, ?_, ?_, ?_, ?_⟩
      · unfold PState.adv
        dsimp only
        rw [if_neg (by simp only [List.length_nil] at hlen; omega)]
      · exact fun hh => nomatch hh
      · exact fun hh => nomatch hh
      · exact fun hh => nomatch hh
    · refine ⟨⟨c6Tokens nm pv q1 q2 q3 q4 q5 q6 q7 (r0 :: rest1), 7⟩, ?_, ?_, ?_, ?_⟩
      · refine adv_in_range (c6Tokens nm pv q1 q2 q3 q4 q5 q6 q7 (r0 :: rest1)) 6 ?_
        have hl2 : (c6Tokens nm pv q1 q2 q3 q4 q5 q6 q7 (r0 :: rest1)).length =
            rest1.length + 8 := by
          simp [c6Tokens]
        omega
      · simpa using h1
      · simpa using h2
      · simpa using h3
  obtain ⟨stL, hAdv, hx1, hx2, hx3⟩ := hstep
  have i3 := parseConfiguracoes_exit (f + 1) stL
    (⟨some nm, some pv, Option.none⟩ : Config) hx1 hx2 hx3
  have i2 := c6_iter2 nm pv hpv2 q1 q2 q3 q4 q5 q6 q7 rest (f + 1) stL hAdv i3
  have i1 := c6_iter1 nm pv hnm2 q1 q2 q3 q4 q5 q6 q7 rest (f + 1 + 1) stL i2
  have hf : f + 3 = f + 1 + 1 + 1 := rfl
  rw [hf, i1]
  exact ⟨rfl, rfl⟩

/-- Witness for the universal part of `c6_recovery_theorem` at the concrete
tokens of the first exemplar. -/
theorem c6_witness :
    (parseConfiguracoes (0 + 3)
        ⟨c6Tokens "X" "moderado" (2, 5) (2, 6) (2, 11) (3, 7) (3, 8) (3, 20)
          (3, 20) [⟨TokenType.EOF, Value.none, 7, 2⟩], 0⟩ {}).val =
      ⟨some "X", some "moderado", Option.none⟩ := by
  exact (c6_recovery_theorem.1 "X" "moderado" (by decide) (by decide)
    (2, 5) (2, 6) (2, 11) (3, 7) (3, 8) (3, 20) (3, 20)
    [⟨TokenType.EOF, Value.none, 7, 2⟩]
    (by decide) (by decide) (by decide) 0).1

/-- Claim C7: the range check emits one SEM005 Error for exactly the
allocation entries strictly outside `[0, 100]`, in order and independent of
the sum check; on the claim's example (150 and -50, summing to exactly 100)
the sum check raises nothing while the range check raises both errors. -/
theorem c7_range_theorem :
    (∀ a : List (String × Frac), rangeErrors a =
      (a.filter fun p => !(decide ((0 : Frac) ≤ p.2 ∧ p.2 ≤ 100))).map
        (fun p => sem005E p.1 p.2)) ∧
    allocSumErrors rangeDoc = [] ∧
    rangeErrors rangeDoc.alocacao =
      [sem005E "ações_internacionais" 150, sem005E "renda_fixa" ⟨-50, 1⟩] := by
  refine ⟨fun a => ?_, by rfl, by rfl⟩
  induction a with
  | nil => rfl
  | cons p rest ih =>
    obtain ⟨asset, q⟩ := p
    simp only [rangeErrors, List.filter_cons]
    by_cases h : (0 : Frac) ≤ q ∧ q ≤ 100
    · simp [h, ih]
    · simp [h, ih]

/-- Claim C8: a string literal enclosing a line break aborts its
accumulation at the break (the break stays unconsumed) and raises LEX001 at
the literal's start position immediately followed by LEX002, since the
literal is then also unclosed; a literal that merely runs to end-of-input
raises LEX002 alone; and on the concrete input `"a<line break>b` lexing
continues past the malformed literal, still producing the remaining tokens
and the end marker. -/
theorem c8_string_theorem :
    (∀ sL sC l c (acc : String) (pre suf : List Char),
      '\n' ∉ pre → '"' ∉ pre →
      readStringAux sL sC (pre ++ '\n' :: suf) l c acc =
        ReadRes.mk (String.mk (acc.data ++ pre)) ('\n' :: suf) l (c + pre.length)
          [lex001E sL sC, lex002E sL sC]) ∧
    (∀ sL sC l c (acc : String) (cs : List Char),
      '\n' ∉ cs → '"' ∉ cs →
      (readStringAux sL sC cs l c acc).errs = [lex002E sL sC]) ∧
    tokenize c8Text =
      ([⟨.STRING, .str "a", 1, 3⟩, ⟨.IDENTIFICADOR, .str "b", 2, 2⟩,
        ⟨.EOF, .none, 2, 2⟩],
       [lex001E 1 1, lex002E 1 1]) := by
  refine ⟨?_, ?_, by rfl⟩
  · intro sL sC l c acc pre suf hn hq
    induction pre generalizing c acc with
    | nil =>
      simp [readStringAux]
    | cons p pre ih =>
      have hp1 : p ≠ '\n' := by rintro rfl; exact hn (by simp)
      have hp2 : p ≠ '"' := by rintro rfl; exact hq (by simp)
      have hn' : '\n' ∉ pre := fun hm => hn (by simp [hm])
      have hq' : '"' ∉ pre := fun hm => hq (by simp [hm])
      simp only [List.cons_append, readStringAux, hp1, hp2, if_false, ite_false,
        List.append_eq]
      rw [ih (c + 1) (acc.push p) hn' hq']
      simp [String.push, List.append_assoc]
      omega
  · intro sL sC l c acc cs hn hq
    induction cs generalizing c acc with
    | nil => rfl
    | cons p cs ih =>
      have hp1 : p ≠ '\n' := by rintro rfl; exact hn (by simp)
      have hp2 : p ≠ '"' := by rintro rfl; exact hq (by simp)
      have hn' : '\n' ∉ cs := fun hm => hn (by simp [hm])
      have hq' : '"' ∉ cs := fun hm => hq (by simp [hm])
      simp only [readStringAux, hp1, hp2, if_false, ite_false]
      exact ih (c + 1) (acc.push p) hn' hq'

/-- Witness for `c8_string_theorem` at the literal body `a<line break>b`:
both diagnostics are raised at the start position and the break is left
unconsumed. -/
theorem c8_witness :
    readStringAux 1 1 ('a' :: '\n' :: ['b']) 1 2 "" =
      ReadRes.mk "a" ('\n' :: ['b']) 1 3 [lex001E 1 1, lex002E 1 1] := by
  have h := c8_string_theorem.1 1 1 1 2 "" ['a'] ['b'] (by decide) (by decide)
  simpa using h

/-- Remaining input of `skipWhile` is a suffix of its input. -/
theorem skipWhile_rest_le (p : Char → Bool) (cs : List Char) (l c : Nat) :
    (skipWhile p cs l c).1.length ≤ cs.length := by
  induction cs generalizing l c with
  | nil => simp [skipWhile]
  | cons ch rest ih =>
    simp only [skipWhile]
    split
    · exact Nat.le_succ_of_le (ih _ _)
    · simp

/-- Remaining input of `readStringAux` is no longer than its input. -/
theorem readStringAux_rest_le (sL sC : Nat) (cs : List Char) (l c : Nat)
    (acc : String) : (readStringAux sL sC cs l c acc).rest.length ≤ cs.length := by
  induction cs generalizing l c acc with
  | nil => simp [readStringAux]
  | cons ch rest ih =>
    simp only [readStringAux]
    split
    · simp
    · split
      · simp
      · exact Nat.le_succ_of_le (ih _ _ _)

/-- Remaining input of `readNumAux` is no longer than its input. -/
theorem readNumAux_rest_le (sL sC : Nat) (dots : Nat) (cs : List Char)
    (l c : Nat) (acc : List Char) :
    (readNumAux sL sC dots cs l c acc).rest.length ≤ cs.length := by
  induction cs generalizing dots l c acc with
  | nil => simp [readNumAux]
  | cons ch rest ih =>
    simp only [readNumAux]
    split
    · exact Nat.le_succ_of_le (ih _ _ _ _)
    · split
      · split
        · simp
        · exact Nat.le_succ_of_le (ih _ _ _ _)
      · simp

/-- Remaining input of `readIdentAux` is no longer than its input. -/
theorem readIdentAux_rest_le (cs : List Char) (l c : Nat) (acc : String) :
    (readIdentAux cs l c acc).rest.length ≤ cs.length := by
  induction cs generalizing l c acc with
  | nil => simp [readIdentAux]
  | cons ch rest ih =>
    simp only [readIdentAux]
    split
    · exact Nat.le_succ_of_le (ih _ _ _)
    · simp

/-- Every branch of the `tokenize` loop body consumes at least the
dispatched character: the remaining input never exceeds the input after
that character. -/
theorem lexStep_rest_le (ch : Char) (rest : List Char) (l c : Nat) :
    (lexStep ch rest l c).rest.length ≤ rest.length := by
  unfold lexStep
  by_cases h1 : isWSChar ch = true
  · rw [if_pos h1]; exact skipWhile_rest_le _ _ _ _
  · rw [if_neg h1]
    by_cases h2 : isNLChar ch = true
    · rw [if_pos h2]; exact skipWhile_rest_le _ _ _ _
    · rw [if_neg h2]
      by_cases h3 : ch = '='
      · rw [if_pos h3]
      · rw [if_neg h3]
        by_cases h4 : ch = '\x7b'
        · rw [if_pos h4]
        · rw [if_neg h4]
          by_cases h5 : ch = '\x7d'
          · rw [if_pos h5]
          · rw [if_neg h5]
            by_cases h6 : ch = ';'
            · rw [if_pos h6]
            · rw [if_neg h6]
              by_cases h7 : ch = '%'
              · rw [if_pos h7]
              · rw [if_neg h7]
                by_cases h8 : ch = '"'
                · rw [if_pos h8]; exact readStringAux_rest_le _ _ _ _ _ _
                · rw [if_neg h8]
                  by_cases h9 : ch.isDigit = true
                  · rw [if_pos h9]; exact readNumAux_rest_le _ _ _ _ _ _ _
                  · rw [if_neg h9]
                    by_cases h10 : (pyIsAlpha ch || ch = '_') = true
                    · rw [if_pos h10]; exact readIdentAux_rest_le _ _ _ _
                    · rw [if_neg h10]

/-- Last element of an append is the last element of its nonempty right
part. -/
theorem getLastD_append {α : Type} (xs ys : List α) (d : α) (h : ys ≠ []) :
    (xs ++ ys).getLastD d = ys.getLastD d := by
  have hs : ys.getLast?.isSome := List.getLast?_isSome.mpr h
  obtain ⟨a, ha⟩ := Option.isSome_iff_exists.mp hs
  simp [List.getLastD_eq_getLast?, List.getLast?_append, ha]

/-- Sufficient fuel (more than the remaining input) makes every `tokenizeAux`
run end in an EOF token: each step consumes at least one character. -/
theorem tokenizeAux_ends_eof :
    ∀ (fuel : Nat) (cs : List Char) (l c : Nat), cs.length < fuel →
      (tokenizeAux fuel cs l c).1 ≠ [] ∧
        ((tokenizeAux fuel cs l c).1.getLastD dummyTok).type = TokenType.EOF := by
  intro fuel
  induction fuel with
  | zero => intro cs l c h; exact absurd h (Nat.not_lt_zero _)
  | succ n ih =>
    intro cs l c h
    match cs with
    | [] => exact ⟨by simp [tokenizeAux], by simp [tokenizeAux, dummyTok]⟩
    | ch :: rest =>
      have hle := lexStep_rest_le ch rest l c
      have hlt : (lexStep ch rest l c).rest.length < n := by
        simp only [List.length_cons] at h
        omega
      obtain ⟨h1, h2⟩ := ih (lexStep ch rest l c).rest (lexStep ch rest l c).line
        (lexStep ch rest l c).col hlt
      simp only [tokenizeAux]
      refine ⟨by simp [h1], ?_⟩
      rw [getLastD_append _ _ _ h1]
      exact h2

/-- Claim C9: for every input text, `tokenize` (whose `length + 1` fuel is
proven sufficient here, so the loop terminates after at most one step per
character) returns a nonempty token sequence whose final element is the EOF
end marker — regardless of which lexical diagnostics were raised along the
way, since no branch of the loop stops it. -/
theorem c9_eof_theorem (cs : List Char) :
    (tokenize cs).1 ≠ [] ∧
      ((tokenize cs).1.getLastD dummyTok).type = TokenType.EOF :=
  tokenizeAux_ends_eof (cs.length + 1) cs 1 1 (Nat.lt_succ_self _)

/-- Claim C10 is refuted on `renda_fixa = 0%;` inside a well-formed
document: the asset is indeed omitted, but every spurious diagnostic sits at
the `%` token (line 3, column 15) — the claim's promised diagnostic "for the
`;` token" (which the lexer placed at line 3, column 16) never appears, as
that token is never reached by the parser. -/
theorem c10_counterexample :
    (runPipeline zeroAssetText).1 = some ⟨{}, [], {}, {}⟩ ∧
    (∀ e ∈ (runPipeline zeroAssetText).2, e.line = some 3 ∧ e.column = some 15) ∧
    Token.mk TokenType.PONTO_VIRGULA (Value.str ";") 3 16 ∈
      (tokenize zeroAssetText).1 := by
  refine ⟨by rfl, by decide, by decide⟩

/-- The allocation loop exits immediately (with any fuel) when the current
token is not an asset-class keyword. -/
theorem parseAlocacaoLoop_exit (fuel : Nat) (st : PState) (a : List (String × Frac))
    (h : assetTypeKind st.cur.type = false) :
    parseAlocacaoLoop fuel st a = StageRes.mk a st [] := by
  cases fuel with
  | zero => rfl
  | succ n =>
    simp only [parseAlocacaoLoop, h, Bool.false_eq_true, if_false, ite_false]

/-- One allocation-loop iteration over an `asset = 0%;` assignment: the
parsed 0 is falsy, so the `%` expectation is short-circuited away, the map is
left untouched, and the expected-`;` SYN001 is raised at the unconsumed `%`
token, on which the loop then exits. -/
theorem c10_iter (astr : String) (atype : TokenType)
    (hA : assetTypeKind atype = true) (q1 q2 q3 q4 q5 : Nat × Nat) (d : Nat)
    (rest : List Token) (g : Nat) (aInit : List (String × Frac))
    (hrec : parseAlocacaoLoop g ⟨c10Tokens astr atype q1 q2 q3 q4 q5 d rest, 3⟩ aInit =
      StageRes.mk aInit ⟨c10Tokens astr atype q1 q2 q3 q4 q5 d rest, 3⟩ []) :
    parseAlocacaoLoop (g + 1) ⟨c10Tokens astr atype q1 q2 q3 q4 q5 d rest, 0⟩ aInit =
      StageRes.mk aInit ⟨c10Tokens astr atype q1 q2 q3 q4 q5 d rest, 3⟩
        [syn001E TokenType.PONTO_VIRGULA TokenType.PORCENTAGEM q4.1 q4.2] := by
  have hlen : (c10Tokens astr atype q1 q2 q3 q4 q5 d rest).length = rest.length + 5 := by
    simp [c10Tokens]
  have eCur0 : ((⟨c10Tokens astr atype q1 q2 q3 q4 q5 d rest, 0⟩ : PState)).cur =
      ⟨atype, .str astr, q1.1, q1.2⟩ := rfl
  have eAdv0 : ((⟨c10Tokens astr atype q1 q2 q3 q4 q5 d rest, 0⟩ : PState)).adv =
      ⟨c10Tokens astr atype q1 q2 q3 q4 q5 d rest, 1⟩ :=
    adv_in_range _ _ (by omega)
  have eAdv1 : ((⟨c10Tokens astr atype q1 q2 q3 q4 q5 d rest, 1⟩ : PState)).adv =
      ⟨c10Tokens astr atype q1 q2 q3 q4 q5 d rest, 2⟩ :=
    adv_in_range _ _ (by omega)
  have eAdv2 : ((⟨c10Tokens astr atype q1 q2 q3 q4 q5 d rest, 2⟩ : PState)).adv =
      ⟨c10Tokens astr atype q1 q2 q3 q4 q5 d rest, 3⟩ :=
    adv_in_range _ _ (by omega)
  have e1 : expectToken .IGUAL ⟨c10Tokens astr atype q1 q2 q3 q4 q5 d rest, 1⟩ =
      StageRes.mk (some (Value.str "="))
        ⟨c10Tokens astr atype q1 q2 q3 q4 q5 d rest, 2⟩ [] := by
    unfold expectToken
    rw [if_neg (fun hh => hh rfl)]
    rw [eAdv1]
    rfl
  have e2 : expectToken .NUMERO ⟨c10Tokens astr atype q1 q2 q3 q4 q5 d rest, 2⟩ =
      StageRes.mk (some (Value.num ⟨0, d⟩))
        ⟨c10Tokens astr atype q1 q2 q3 q4 q5 d rest, 3⟩ [] := by
    unfold expectToken
    rw [if_neg (fun hh => hh rfl)]
    rw [eAdv2]
    rfl
  have e3 : expectToken .PONTO_VIRGULA ⟨c10Tokens astr atype q1 q2 q3 q4 q5 d rest, 3⟩ =
      StageRes.mk Option.none ⟨c10Tokens astr atype q1 q2 q3 q4 q5 d rest, 3⟩
        [syn001E .PONTO_VIRGULA .PORCENTAGEM q4.1 q4.2] := by
    unfold expectToken
    rw [if_pos (fun hh => nomatch hh)]
    rfl
  have hTeq : optTruthy (some (Value.str "=")) = true := by decide
  have hTzero : optTruthy (some (Value.num ⟨0, d⟩)) = false := rfl
  simp only [parseAlocacaoLoop, eCur0, eAdv0, e1, e2, e3, hA, hTeq, hTzero, hrec,
    reduceCtorEq, eq_self_iff_true, if_true, if_false, ite_true, ite_false,
    Bool.false_eq_true, List.nil_append, List.append_nil]


/-- Claim C10 (amended): for every asset-class keyword, token positions,
zero-denominator literal and continuation, an `asset = 0%;` assignment
leaves the allocation mapping untouched (the parsed 0 is falsy like a failed
expectation) and raises the spurious expected-`;` SYN001 at the following
`%` token, which stays unconsumed so the allocation loop exits there; the
`;` token itself is never consumed nor diagnosed.  On the concrete pipeline
runs, the unconsumed `%` then also draws the expected-brace errors, and a
horizon assignment with amount 0 is likewise dropped from the configuration
with the analogous spurious errors at the following unit keyword. -/
theorem c10_zero_theorem :
    (∀ (astr : String) (atype : TokenType), assetTypeKind atype = true →
      ∀ (q1 q2 q3 q4 q5 : Nat × Nat) (d : Nat) (rest : List Token) (f : Nat)
        (aInit : List (String × Frac)),
      parseAlocacaoLoop (f + 1)
          ⟨c10Tokens astr atype q1 q2 q3 q4 q5 d rest, 0⟩ aInit =
        StageRes.mk aInit ⟨c10Tokens astr atype q1 q2 q3 q4 q5 d rest, 3⟩
          [syn001E TokenType.PONTO_VIRGULA TokenType.PORCENTAGEM q4.1 q4.2]) ∧
    (runPipeline zeroAssetText).1 = some ⟨{}, [], {}, {}⟩ ∧
    (runPipeline zeroAssetText).2 =
      [syn001E TokenType.PONTO_VIRGULA TokenType.PORCENTAGEM 3 15,
        syn001E TokenType.CHAVE_FECHA TokenType.PORCENTAGEM 3 15,
        syn001E TokenType.CHAVE_FECHA TokenType.PORCENTAGEM 3 15] ∧
    (runPipeline zeroHorizonText).1 ≠ Option.none ∧
    (∀ d, (runPipeline zeroHorizonText).1 = some d →
      d.configuracoes.horizonte = Option.none) ∧
    (runPipeline zeroHorizonText).2 =
      [syn001E TokenType.PONTO_VIRGULA TokenType.ANOS 2 28,
        syn001E TokenType.ALOCACAO TokenType.ANOS 2 28,
        syn001E TokenType.CHAVE_FECHA TokenType.ANOS 2 28] := by
  refine ⟨?_, by rfl, by rfl, by decide, ?_, by rfl⟩
  · intro astr atype hA q1 q2 q3 q4 q5 d rest f aInit
    have hexit := parseAlocacaoLoop_exit f
      ⟨c10Tokens astr atype q1 q2 q3 q4 q5 d rest, 3⟩ aInit rfl
    exact c10_iter astr atype hA q1 q2 q3 q4 q5 d rest f aInit hexit
  · intro d hd
    have h2 : (runPipeline zeroHorizonText).1 = some ⟨{}, [], {}, {}⟩ := by rfl
    rw [hd] at h2
    rw [Option.some.inj h2]

/-- Witness for the universal part of `c10_zero_theorem` at the concrete
`renda_fixa = 0%;` assignment. -/
theorem c10_witness :
    parseAlocacaoLoop (0 + 1)
        ⟨c10Tokens "renda_fixa" TokenType.RENDA_FIXA (3, 11) (3, 12) (3, 14)
          (3, 15) (3, 16) 1 [⟨TokenType.EOF, Value.none, 5, 2⟩], 0⟩ [] =
      StageRes.mk []
        ⟨c10Tokens "renda_fixa" TokenType.RENDA_FIXA (3, 11) (3, 12) (3, 14)
          (3, 15) (3, 16) 1 [⟨TokenType.EOF, Value.none, 5, 2⟩], 3⟩
        [syn001E TokenType.PONTO_VIRGULA TokenType.PORCENTAGEM 3 15] := by
  exact c10_zero_theorem.1 "renda_fixa" TokenType.RENDA_FIXA (by decide)
    (3, 11) (3, 12) (3, 14) (3, 15) (3, 16) 1
    [⟨TokenType.EOF, Value.none, 5, 2⟩] 0 []

-- ==========================================================================
-- Fuel adequacy: the loop models are insensitive to the embedding fuel
-- ==========================================================================


/-- Model of `advance_token` never changes the token list. -/
theorem adv_tokens (st : PState) : st.adv.tokens = st.tokens := by
  unfold PState.adv
  split <;> rfl

/-- Model of `advance_token` never moves the cursor left. -/
theorem adv_pos_ge (st : PState) : st.pos ≤ st.adv.pos := by
  unfold PState.adv
  split
  · exact Nat.le_succ _
  · exact Nat.le_refl _

/-- Model of `expect_token` never changes the token list. -/
theorem expectToken_st_tokens (k : TokenType) (st : PState) :
    (expectToken k st).st.tokens = st.tokens := by
  unfold expectToken
  split
  · rfl
  · exact adv_tokens st

/-- Model of `expect_token` never moves the cursor left. -/
theorem expectToken_st_pos_ge (k : TokenType) (st : PState) :
    st.pos ≤ (expectToken k st).st.pos := by
  unfold expectToken
  split
  · exact Nat.le_refl _
  · exact adv_pos_ge st

/-- Reading a token list at index `length - 1` reads its last element. -/
theorem getD_last (l : List Token) (d : Token) :
    l.getD (l.length - 1) d = l.getLastD d := by
  rw [List.getD_eq_getElem?_getD, List.getLastD_eq_getLast?, List.getLast?_eq_getElem?]

/-- Lemma: on an EOF-terminated token list a non-EOF current token sits strictly before the final slot. -/
theorem pos_bound_of_cur_ne_eof (st : PState)
    (hEof : (st.tokens.getLastD dummyTok).type = TokenType.EOF)
    (hne : st.cur.type ≠ TokenType.EOF) : st.pos + 2 ≤ st.tokens.length := by
  by_contra hcon
  push_neg at hcon
  rcases Nat.lt_or_ge st.pos st.tokens.length with hlt | hge
  · have hp : st.pos = st.tokens.length - 1 := by omega
    have hc : st.cur = st.tokens.getLastD dummyTok := by
      rw [PState.cur, hp, getD_last]
    exact hne (by rw [hc]; exact hEof)
  · have hc : st.cur = dummyTok := by
      rw [PState.cur]
      exact List.getD_eq_default _ _ hge
    exact hne (by rw [hc]; rfl)

/-- Lemma: on an EOF-terminated token list, advancing from a non-EOF token moves exactly one slot right. -/
theorem adv_of_cur_ne_eof (st : PState)
    (hEof : (st.tokens.getLastD dummyTok).type = TokenType.EOF)
    (hne : st.cur.type ≠ TokenType.EOF) : st.adv = ⟨st.tokens, st.pos + 1⟩ := by
  have h := pos_bound_of_cur_ne_eof st hEof hne
  unfold PState.adv
  rw [if_pos (by omega)]

/-- Fuel stability of the configuration loop: on an EOF-terminated token list any two fuel values exceeding the number of remaining tokens yield the same result, so the fuelled model computes the unique behaviour of the source while loop. -/
theorem parseConfiguracoes_fuel_stable :
    ∀ (k : Nat) (st : PState) (cfg : Config),
      st.tokens.length - st.pos ≤ k →
      (st.tokens.getLastD dummyTok).type = TokenType.EOF →
      ∀ n m : Nat, st.tokens.length - st.pos < n → st.tokens.length - st.pos < m →
        parseConfiguracoes n st cfg = parseConfiguracoes m st cfg := by
  intro k
  induction k with
  | zero =>
    intro st cfg hk hEof n m hn hm
    have hc : st.cur = dummyTok := by
      rw [PState.cur]
      exact List.getD_eq_default _ _ (by omega)
    have h1 : st.cur.type ≠ TokenType.NOME := by rw [hc]; decide
    have h2 : st.cur.type ≠ TokenType.PERFIL := by rw [hc]; decide
    have h3 : st.cur.type ≠ TokenType.HORIZONTE_TEMPORAL := by rw [hc]; decide
    rw [parseConfiguracoes_exit n st cfg h1 h2 h3,
      parseConfiguracoes_exit m st cfg h1 h2 h3]
  | succ k ih =>
    intro st cfg hk hEof n m hn hm
    obtain ⟨n, rfl⟩ : ∃ n1, n = n1 + 1 := ⟨n - 1, by omega⟩
    obtain ⟨m, rfl⟩ : ∃ m1, m = m1 + 1 := ⟨m - 1, by omega⟩
    by_cases h1 : st.cur.type = TokenType.NOME
    · have hne : st.cur.type ≠ TokenType.EOF := by rw [h1]; decide
      have hbound := pos_bound_of_cur_ne_eof st hEof hne
      have hadv : st.adv = (⟨st.tokens, st.pos + 1⟩ : PState) := adv_of_cur_ne_eof st hEof hne
      have hpA : st.pos + 1 ≤ (expectToken TokenType.IGUAL st.adv).st.pos := by
        calc st.pos + 1 = st.adv.pos := by rw [hadv]
        _ ≤ _ := expectToken_st_pos_ge _ _
      have htA : (expectToken TokenType.IGUAL st.adv).st.tokens = st.tokens := by
        rw [expectToken_st_tokens, adv_tokens]
      have hpT : st.pos + 1 ≤
          (expectToken TokenType.PONTO_VIRGULA
            (expectToken TokenType.STRING (expectToken TokenType.IGUAL st.adv).st).st).st.pos :=
        le_trans hpA (le_trans (expectToken_st_pos_ge _ _) (expectToken_st_pos_ge _ _))
      have htT : (expectToken TokenType.PONTO_VIRGULA
          (expectToken TokenType.STRING (expectToken TokenType.IGUAL st.adv).st).st).st.tokens
          = st.tokens := by
        rw [expectToken_st_tokens, expectToken_st_tokens, htA]
      have hrecT : ∀ c : Config,
          parseConfiguracoes n
            (expectToken TokenType.PONTO_VIRGULA
              (expectToken TokenType.STRING (expectToken TokenType.IGUAL st.adv).st).st).st c =
          parseConfiguracoes m
            (expectToken TokenType.PONTO_VIRGULA
              (expectToken TokenType.STRING (expectToken TokenType.IGUAL st.adv).st).st).st c :=
        fun c => ih _ c (by rw [htT]; omega) (by rw [htT]; exact hEof) n m
          (by rw [htT]; omega) (by rw [htT]; omega)
      have hrecE : ∀ c : Config,
          parseConfiguracoes n (expectToken TokenType.IGUAL st.adv).st c =
          parseConfiguracoes m (expectToken TokenType.IGUAL st.adv).st c :=
        fun c => ih _ c (by rw [htA]; omega) (by rw [htA]; exact hEof) n m
          (by rw [htA]; omega) (by rw [htA]; omega)
      simp only [parseConfiguracoes]
      rw [if_pos h1, if_pos h1, hrecT, hrecE]
    · by_cases h2 : st.cur.type = TokenType.PERFIL
      · have hne : st.cur.type ≠ TokenType.EOF := by rw [h2]; decide
        have hbound := pos_bound_of_cur_ne_eof st hEof hne
        have hadv : st.adv = (⟨st.tokens, st.pos + 1⟩ : PState) := adv_of_cur_ne_eof st hEof hne
        have hpA : st.pos + 1 ≤ (expectToken TokenType.IGUAL st.adv).st.pos := by
          calc st.pos + 1 = st.adv.pos := by rw [hadv]
          _ ≤ _ := expectToken_st_pos_ge _ _
        have htA : (expectToken TokenType.IGUAL st.adv).st.tokens = st.tokens := by
          rw [expectToken_st_tokens, adv_tokens]
        have hpT : st.pos + 1 ≤
            (expectToken TokenType.PONTO_VIRGULA
              (expectToken TokenType.STRING (expectToken TokenType.IGUAL st.adv).st).st).st.pos :=
          le_trans hpA (le_trans (expectToken_st_pos_ge _ _) (expectToken_st_pos_ge _ _))
        have htT : (expectToken TokenType.PONTO_VIRGULA
            (expectToken TokenType.STRING (expectToken TokenType.IGUAL st.adv).st).st).st.tokens
            = st.tokens := by
          rw [expectToken_st_tokens, expectToken_st_tokens, htA]
        have hrecT : ∀ c : Config,
            parseConfiguracoes n
              (expectToken TokenType.PONTO_VIRGULA
                (expectToken TokenType.STRING (expectToken TokenType.IGUAL st.adv).st).st).st c =
            parseConfiguracoes m
              (expectToken TokenType.PONTO_VIRGULA
                (expectToken TokenType.STRING (expectToken TokenType.IGUAL st.adv).st).st).st c :=
          fun c => ih _ c (by rw [htT]; omega) (by rw [htT]; exact hEof) n m
            (by rw [htT]; omega) (by rw [htT]; omega)
        have hrecE : ∀ c : Config,
            parseConfiguracoes n (expectToken TokenType.IGUAL st.adv).st c =
            parseConfiguracoes m (expectToken TokenType.IGUAL st.adv).st c :=
          fun c => ih _ c (by rw [htA]; omega) (by rw [htA]; exact hEof) n m
            (by rw [htA]; omega) (by rw [htA]; omega)
        simp only [parseConfiguracoes]
        rw [if_neg h1, if_neg h1, if_pos h2, if_pos h2, hrecT, hrecE]
      · by_cases h3 : st.cur.type = TokenType.HORIZONTE_TEMPORAL
        · have hne : st.cur.type ≠ TokenType.EOF := by rw [h3]; decide
          have hbound := pos_bound_of_cur_ne_eof st hEof hne
          have hadv : st.adv = (⟨st.tokens, st.pos + 1⟩ : PState) := adv_of_cur_ne_eof st hEof hne
          have hpA : st.pos + 1 ≤ (expectToken TokenType.IGUAL st.adv).st.pos := by
            calc st.pos + 1 = st.adv.pos := by rw [hadv]
            _ ≤ _ := expectToken_st_pos_ge _ _
          have htA : (expectToken TokenType.IGUAL st.adv).st.tokens = st.tokens := by
            rw [expectToken_st_tokens, adv_tokens]
          have hpB : st.pos + 1 ≤
              (expectToken TokenType.PONTO_VIRGULA
                (expectToken TokenType.NUMERO (expectToken TokenType.IGUAL st.adv).st).st).st.pos :=
            le_trans hpA (le_trans (expectToken_st_pos_ge _ _) (expectToken_st_pos_ge _ _))
          have htB : (expectToken TokenType.PONTO_VIRGULA
              (expectToken TokenType.NUMERO (expectToken TokenType.IGUAL st.adv).st).st).st.tokens
              = st.tokens := by
            rw [expectToken_st_tokens, expectToken_st_tokens, htA]
          have hpC : st.pos + 1 ≤
              (expectToken TokenType.PONTO_VIRGULA
                (expectToken TokenType.NUMERO (expectToken TokenType.IGUAL st.adv).st).st.adv).st.pos :=
            le_trans hpA (le_trans (expectToken_st_pos_ge _ _)
              (le_trans (adv_pos_ge _) (expectToken_st_pos_ge _ _)))
          have htC : (expectToken TokenType.PONTO_VIRGULA
              (expectToken TokenType.NUMERO (expectToken TokenType.IGUAL st.adv).st).st.adv).st.tokens
              = st.tokens := by
            rw [expectToken_st_tokens, adv_tokens, expectToken_st_tokens, htA]
          have hrecB : ∀ c : Config,
              parseConfiguracoes n
                (expectToken TokenType.PONTO_VIRGULA
                  (expectToken TokenType.NUMERO (expectToken TokenType.IGUAL st.adv).st).st).st c =
              parseConfiguracoes m
                (expectToken TokenType.PONTO_VIRGULA
                  (expectToken TokenType.NUMERO (expectToken TokenType.IGUAL st.adv).st).st).st c :=
            fun c => ih _ c (by rw [htB]; omega) (by rw [htB]; exact hEof) n m
              (by rw [htB]; omega) (by rw [htB]; omega)
          have hrecC : ∀ c : Config,
              parseConfiguracoes n
                (expectToken TokenType.PONTO_VIRGULA
                  (expectToken TokenType.NUMERO (expectToken TokenType.IGUAL st.adv).st).st.adv).st c =
              parseConfiguracoes m
                (expectToken TokenType.PONTO_VIRGULA
                  (expectToken TokenType.NUMERO (expectToken TokenType.IGUAL st.adv).st).st.adv).st c :=
            fun c => ih _ c (by rw [htC]; omega) (by rw [htC]; exact hEof) n m
              (by rw [htC]; omega) (by rw [htC]; omega)
          have hrecE : ∀ c : Config,
              parseConfiguracoes n (expectToken TokenType.IGUAL st.adv).st c =
              parseConfiguracoes m (expectToken TokenType.IGUAL st.adv).st c :=
            fun c => ih _ c (by rw [htA]; omega) (by rw [htA]; exact hEof) n m
              (by rw [htA]; omega) (by rw [htA]; omega)
          simp only [parseConfiguracoes]
          rw [if_neg h1, if_neg h1, if_neg h2, if_neg h2, if_pos h3, if_pos h3,
            hrecB, hrecC, hrecE]
        · rw [parseConfiguracoes_exit (n + 1) st cfg h1 h2 h3,
            parseConfiguracoes_exit (m + 1) st cfg h1 h2 h3]

/-- Composition form of the cursor monotonicity of `expect_token`. -/
theorem expectToken_pos_ge_trans (k : TokenType) {p : Nat} (st : PState)
    (h : p ≤ st.pos) : p ≤ (expectToken k st).st.pos :=
  le_trans h (expectToken_st_pos_ge k st)

/-- Composition form of the cursor monotonicity of `advance_token`. -/
theorem adv_pos_ge_trans {p : Nat} (st : PState) (h : p ≤ st.pos) : p ≤ st.adv.pos :=
  le_trans h (adv_pos_ge st)

/-- Fuel stability of the allocation loop on EOF-terminated token lists. -/
theorem parseAlocacaoLoop_fuel_stable :
    ∀ (k : Nat) (st : PState) (a : List (String × Frac)),
      st.tokens.length - st.pos ≤ k →
      (st.tokens.getLastD dummyTok).type = TokenType.EOF →
      ∀ n m : Nat, st.tokens.length - st.pos < n → st.tokens.length - st.pos < m →
        parseAlocacaoLoop n st a = parseAlocacaoLoop m st a := by
  intro k
  induction k with
  | zero =>
    intro st a hk hEof n m hn hm
    have hc : st.cur = dummyTok := by
      rw [PState.cur]
      exact List.getD_eq_default _ _ (by omega)
    have h : assetTypeKind st.cur.type = false := by rw [hc]; decide
    rw [parseAlocacaoLoop_exit n st a h, parseAlocacaoLoop_exit m st a h]
  | succ k ih =>
    intro st a hk hEof n m hn hm
    obtain ⟨n, rfl⟩ : ∃ n1, n = n1 + 1 := ⟨n - 1, by omega⟩
    obtain ⟨m, rfl⟩ : ∃ m1, m = m1 + 1 := ⟨m - 1, by omega⟩
    by_cases h1 : assetTypeKind st.cur.type = true
    · have hne : st.cur.type ≠ TokenType.EOF := by
        intro he
        rw [he] at h1
        exact absurd h1 (by decide)
      have hbound := pos_bound_of_cur_ne_eof st hEof hne
      have hadv : st.adv = (⟨st.tokens, st.pos + 1⟩ : PState) := adv_of_cur_ne_eof st hEof hne
      have hp0 : st.pos + 1 ≤ st.adv.pos := by rw [hadv]
      have ht1 : (expectToken TokenType.PONTO_VIRGULA
          (expectToken TokenType.PORCENTAGEM
            (expectToken TokenType.NUMERO
              (expectToken TokenType.IGUAL st.adv).st).st).st).st.tokens = st.tokens := by
        simp only [expectToken_st_tokens, adv_tokens]
      have ht2 : (expectToken TokenType.PONTO_VIRGULA
          (expectToken TokenType.NUMERO
            (expectToken TokenType.IGUAL st.adv).st).st).st.tokens = st.tokens := by
        simp only [expectToken_st_tokens, adv_tokens]
      have ht3 : (expectToken TokenType.IGUAL st.adv).st.tokens = st.tokens := by
        simp only [expectToken_st_tokens, adv_tokens]
      have hq1 : st.pos + 1 ≤ (expectToken TokenType.PONTO_VIRGULA
          (expectToken TokenType.PORCENTAGEM
            (expectToken TokenType.NUMERO
              (expectToken TokenType.IGUAL st.adv).st).st).st).st.pos :=
        expectToken_pos_ge_trans _ _ (expectToken_pos_ge_trans _ _
          (expectToken_pos_ge_trans _ _ (expectToken_pos_ge_trans _ _ hp0)))
      have hq2 : st.pos + 1 ≤ (expectToken TokenType.PONTO_VIRGULA
          (expectToken TokenType.NUMERO
            (expectToken TokenType.IGUAL st.adv).st).st).st.pos :=
        expectToken_pos_ge_trans _ _ (expectToken_pos_ge_trans _ _
          (expectToken_pos_ge_trans _ _ hp0))
      have hq3 : st.pos + 1 ≤ (expectToken TokenType.IGUAL st.adv).st.pos :=
        expectToken_pos_ge_trans _ _ hp0
      have hrec1 : ∀ c : List (String × Frac),
          parseAlocacaoLoop n (expectToken TokenType.PONTO_VIRGULA
            (expectToken TokenType.PORCENTAGEM
              (expectToken TokenType.NUMERO
                (expectToken TokenType.IGUAL st.adv).st).st).st).st c =
          parseAlocacaoLoop m (expectToken TokenType.PONTO_VIRGULA
            (expectToken TokenType.PORCENTAGEM
              (expectToken TokenType.NUMERO
                (expectToken TokenType.IGUAL st.adv).st).st).st).st c :=
        fun c => ih _ c (by rw [ht1]; omega) (by rw [ht1]; exact hEof) n m
          (by rw [ht1]; omega) (by rw [ht1]; omega)
      have hrec2 : ∀ c : List (String × Frac),
          parseAlocacaoLoop n (expectToken TokenType.PONTO_VIRGULA
            (expectToken TokenType.NUMERO
              (expectToken TokenType.IGUAL st.adv).st).st).st c =
          parseAlocacaoLoop m (expectToken TokenType.PONTO_VIRGULA
            (expectToken TokenType.NUMERO
              (expectToken TokenType.IGUAL st.adv).st).st).st c :=
        fun c => ih _ c (by rw [ht2]; omega) (by rw [ht2]; exact hEof) n m
          (by rw [ht2]; omega) (by rw [ht2]; omega)
      have hrec3 : ∀ c : List (String × Frac),
          parseAlocacaoLoop n (expectToken TokenType.IGUAL st.adv).st c =
          parseAlocacaoLoop m (expectToken TokenType.IGUAL st.adv).st c :=
        fun c => ih _ c (by rw [ht3]; omega) (by rw [ht3]; exact hEof) n m
          (by rw [ht3]; omega) (by rw [ht3]; omega)
      simp only [parseAlocacaoLoop]
      rw [if_pos h1, if_pos h1, hrec1, hrec2, hrec3]
    · have h : assetTypeKind st.cur.type = false := by
        cases hb : assetTypeKind st.cur.type
        · rfl
        · exact absurd hb h1
      rw [parseAlocacaoLoop_exit (n + 1) st a h, parseAlocacaoLoop_exit (m + 1) st a h]

/-- The restriction loop exits immediately (with any fuel) when the current token is neither of its two keywords. -/
theorem parseRestricoesLoop_exit (fuel : Nat) (st : PState) (acc : Restr)
    (h1 : st.cur.type ≠ TokenType.VOLATILIDADE_MAXIMA)
    (h2 : st.cur.type ≠ TokenType.TAXA_ADMINISTRATIVA_MAXIMA) :
    parseRestricoesLoop fuel st acc = StageRes.mk acc st [] := by
  have g1 : (st.cur.type = TokenType.VOLATILIDADE_MAXIMA) = False := by
    simp only [eq_iff_iff, iff_false]
    exact h1
  have g2 : (st.cur.type = TokenType.TAXA_ADMINISTRATIVA_MAXIMA) = False := by
    simp only [eq_iff_iff, iff_false]
    exact h2
  cases fuel with
  | zero => rfl
  | succ n => simp only [parseRestricoesLoop, g1, g2, if_false, ite_false]

/-- Fuel stability of the restriction loop on EOF-terminated token lists. -/
theorem parseRestricoesLoop_fuel_stable :
    ∀ (k : Nat) (st : PState) (acc : Restr),
      st.tokens.length - st.pos ≤ k →
      (st.tokens.getLastD dummyTok).type = TokenType.EOF →
      ∀ n m : Nat, st.tokens.length - st.pos < n → st.tokens.length - st.pos < m →
        parseRestricoesLoop n st acc = parseRestricoesLoop m st acc := by
  intro k
  induction k with
  | zero =>
    intro st acc hk hEof n m hn hm
    have hc : st.cur = dummyTok := by
      rw [PState.cur]
      exact List.getD_eq_default _ _ (by omega)
    have h1 : st.cur.type ≠ TokenType.VOLATILIDADE_MAXIMA := by rw [hc]; decide
    have h2 : st.cur.type ≠ TokenType.TAXA_ADMINISTRATIVA_MAXIMA := by rw [hc]; decide
    rw [parseRestricoesLoop_exit n st acc h1 h2, parseRestricoesLoop_exit m st acc h1 h2]
  | succ k ih =>
    intro st acc hk hEof n m hn hm
    obtain ⟨n, rfl⟩ : ∃ n1, n = n1 + 1 := ⟨n - 1, by omega⟩
    obtain ⟨m, rfl⟩ : ∃ m1, m = m1 + 1 := ⟨m - 1, by omega⟩
    by_cases h1 : st.cur.type = TokenType.VOLATILIDADE_MAXIMA
    · have hne : st.cur.type ≠ TokenType.EOF := by rw [h1]; decide
      have hbound := pos_bound_of_cur_ne_eof st hEof hne
      have hadv : st.adv = (⟨st.tokens, st.pos + 1⟩ : PState) := adv_of_cur_ne_eof st hEof hne
      have hp0 : st.pos + 1 ≤ st.adv.pos := by rw [hadv]
      have ht1 : (expectToken TokenType.PONTO_VIRGULA
          (expectToken TokenType.PORCENTAGEM
            (expectToken TokenType.NUMERO
              (expectToken TokenType.IGUAL st.adv).st).st).st).st.tokens = st.tokens := by
        simp only [expectToken_st_tokens, adv_tokens]
      have ht2 : (expectToken TokenType.PONTO_VIRGULA
          (expectToken TokenType.NUMERO
            (expectToken TokenType.IGUAL st.adv).st).st).st.tokens = st.tokens := by
        simp only [expectToken_st_tokens, adv_tokens]
      have ht3 : (expectToken TokenType.IGUAL st.adv).st.tokens = st.tokens := by
        simp only [expectToken_st_tokens, adv_tokens]
      have hq1 : st.pos + 1 ≤ (expectToken TokenType.PONTO_VIRGULA
          (expectToken TokenType.PORCENTAGEM
            (expectToken TokenType.NUMERO
              (expectToken TokenType.IGUAL st.adv).st).st).st).st.pos :=
        expectToken_pos_ge_trans _ _ (expectToken_pos_ge_trans _ _
          (expectToken_pos_ge_trans _ _ (expectToken_pos_ge_trans _ _ hp0)))
      have hq2 : st.pos + 1 ≤ (expectToken TokenType.PONTO_VIRGULA
          (expectToken TokenType.NUMERO
            (expectToken TokenType.IGUAL st.adv).st).st).st.pos :=
        expectToken_pos_ge_trans _ _ (expectToken_pos_ge_trans _ _
          (expectToken_pos_ge_trans _ _ hp0))
      have hq3 : st.pos + 1 ≤ (expectToken TokenType.IGUAL st.adv).st.pos :=
        expectToken_pos_ge_trans _ _ hp0
      have hrec1 : ∀ c : Restr,
          parseRestricoesLoop n (expectToken TokenType.PONTO_VIRGULA
            (expectToken TokenType.PORCENTAGEM
              (expectToken TokenType.NUMERO
                (expectToken TokenType.IGUAL st.adv).st).st).st).st c =
          parseRestricoesLoop m (expectToken TokenType.PONTO_VIRGULA
            (expectToken TokenType.PORCENTAGEM
              (expectToken TokenType.NUMERO
                (expectToken TokenType.IGUAL st.adv).st).st).st).st c :=
        fun c => ih _ c (by rw [ht1]; omega) (by rw [ht1]; exact hEof) n m
          (by rw [ht1]; omega) (by rw [ht1]; omega)
      have hrec2 : ∀ c : Restr,
          parseRestricoesLoop n (expectToken TokenType.PONTO_VIRGULA
            (expectToken TokenType.NUMERO
              (expectToken TokenType.IGUAL st.adv).st).st).st c =
          parseRestricoesLoop m (expectToken TokenType.PONTO_VIRGULA
            (expectToken TokenType.NUMERO
              (expectToken TokenType.IGUAL st.adv).st).st).st c :=
        fun c => ih _ c (by rw [ht2]; omega) (by rw [ht2]; exact hEof) n m
          (by rw [ht2]; omega) (by rw [ht2]; omega)
      have hrec3 : ∀ c : Restr,
          parseRestricoesLoop n (expectToken TokenType.IGUAL st.adv).st c =
          parseRestricoesLoop m (expectToken TokenType.IGUAL st.adv).st c :=
        fun c => ih _ c (by rw [ht3]; omega) (by rw [ht3]; exact hEof) n m
          (by rw [ht3]; omega) (by rw [ht3]; omega)
      simp only [parseRestricoesLoop]
      rw [if_pos h1, if_pos h1, hrec1, hrec2, hrec3]
    · by_cases h2 : st.cur.type = TokenType.TAXA_ADMINISTRATIVA_MAXIMA
      · have hne : st.cur.type ≠ TokenType.EOF := by rw [h2]; decide
        have hbound := pos_bound_of_cur_ne_eof st hEof hne
        have hadv : st.adv = (⟨st.tokens, st.pos + 1⟩ : PState) := adv_of_cur_ne_eof st hEof hne
        have hp0 : st.pos + 1 ≤ st.adv.pos := by rw [hadv]
        have ht1 : (expectToken TokenType.PONTO_VIRGULA
            (expectToken TokenType.PORCENTAGEM
              (expectToken TokenType.NUMERO
                (expectToken TokenType.IGUAL st.adv).st).st).st).st.tokens = st.tokens := by
          simp only [expectToken_st_tokens, adv_tokens]
        have ht2 : (expectToken TokenType.PONTO_VIRGULA
            (expectToken TokenType.NUMERO
              (expectToken TokenType.IGUAL st.adv).st).st).st.tokens = st.tokens := by
          simp only [expectToken_st_tokens, adv_tokens]
        have ht3 : (expectToken TokenType.IGUAL st.adv).st.tokens = st.tokens := by
          simp only [expectToken_st_tokens, adv_tokens]
        have hq1 : st.pos + 1 ≤ (expectToken TokenType.PONTO_VIRGULA
            (expectToken TokenType.PORCENTAGEM
              (expectToken TokenType.NUMERO
                (expectToken TokenType.IGUAL st.adv).st).st).st).st.pos :=
          expectToken_pos_ge_trans _ _ (expectToken_pos_ge_trans _ _
            (expectToken_pos_ge_trans _ _ (expectToken_pos_ge_trans _ _ hp0)))
        have hq2 : st.pos + 1 ≤ (expectToken TokenType.PONTO_VIRGULA
            (expectToken TokenType.NUMERO
              (expectToken TokenType.IGUAL st.adv).st).st).st.pos :=
          expectToken_pos_ge_trans _ _ (expectToken_pos_ge_trans _ _
            (expectToken_pos_ge_trans _ _ hp0))
        have hq3 : st.pos + 1 ≤ (expectToken TokenType.IGUAL st.adv).st.pos :=
          expectToken_pos_ge_trans _ _ hp0
        have hrec1 : ∀ c : Restr,
            parseRestricoesLoop n (expectToken TokenType.PONTO_VIRGULA
              (expectToken TokenType.PORCENTAGEM
                (expectToken TokenType.NUMERO
                  (expectToken TokenType.IGUAL st.adv).st).st).st).st c =
            parseRestricoesLoop m (expectToken TokenType.PONTO_VIRGULA
              (expectToken TokenType.PORCENTAGEM
                (expectToken TokenType.NUMERO
                  (expectToken TokenType.IGUAL st.adv).st).st).st).st c :=
          fun c => ih _ c (by rw [ht1]; omega) (by rw [ht1]; exact hEof) n m
            (by rw [ht1]; omega) (by rw [ht1]; omega)
        have hrec2 : ∀ c : Restr,
            parseRestricoesLoop n (expectToken TokenType.PONTO_VIRGULA
              (expectToken TokenType.NUMERO
                (expectToken TokenType.IGUAL st.adv).st).st).st c =
            parseRestricoesLoop m (expectToken TokenType.PONTO_VIRGULA
              (expectToken TokenType.NUMERO
                (expectToken TokenType.IGUAL st.adv).st).st).st c :=
          fun c => ih _ c (by rw [ht2]; omega) (by rw [ht2]; exact hEof) n m
            (by rw [ht2]; omega) (by rw [ht2]; omega)
        have hrec3 : ∀ c : Restr,
            parseRestricoesLoop n (expectToken TokenType.IGUAL st.adv).st c =
            parseRestricoesLoop m (expectToken TokenType.IGUAL st.adv).st c :=
          fun c => ih _ c (by rw [ht3]; omega) (by rw [ht3]; exact hEof) n m
            (by rw [ht3]; omega) (by rw [ht3]; omega)
        simp only [parseRestricoesLoop]
        rw [if_neg h1, if_neg h1, if_pos h2, if_pos h2, hrec1, hrec2, hrec3]
      · rw [parseRestricoesLoop_exit (n + 1) st acc h1 h2,
          parseRestricoesLoop_exit (m + 1) st acc h1 h2]

/-- The configuration loop never changes the token list. -/
theorem parseConfiguracoes_st_tokens :
    ∀ (fuel : Nat) (st : PState) (cfg : Config),
      (parseConfiguracoes fuel st cfg).st.tokens = st.tokens := by
  intro fuel
  induction fuel with
  | zero => intro st cfg; rfl
  | succ fuel ih =>
    intro st cfg
    simp only [parseConfiguracoes]
    split
    · split
      · rw [ih]
        simp only [expectToken_st_tokens, adv_tokens]
      · rw [ih]
        simp only [expectToken_st_tokens, adv_tokens]
    · split
      · split
        · rw [ih]
          simp only [expectToken_st_tokens, adv_tokens]
        · rw [ih]
          simp only [expectToken_st_tokens, adv_tokens]
      · split
        · split
          · split
            · rw [ih]
              simp only [expectToken_st_tokens, adv_tokens]
            · rw [ih]
              simp only [expectToken_st_tokens, adv_tokens]
          · rw [ih]
            simp only [expectToken_st_tokens, adv_tokens]
        · rfl

/-- The configuration loop never moves the cursor left. -/
theorem parseConfiguracoes_st_pos_ge :
    ∀ (fuel : Nat) (st : PState) (cfg : Config),
      st.pos ≤ (parseConfiguracoes fuel st cfg).st.pos := by
  intro fuel
  induction fuel with
  | zero => intro st cfg; exact Nat.le_refl _
  | succ fuel ih =>
    intro st cfg
    simp only [parseConfiguracoes]
    split
    · split
      · exact le_trans (expectToken_pos_ge_trans _ _ (expectToken_pos_ge_trans _ _
          (expectToken_pos_ge_trans _ _ (adv_pos_ge_trans _ (Nat.le_refl _))))) (ih _ _)
      · exact le_trans (expectToken_pos_ge_trans _ _ (adv_pos_ge_trans _ (Nat.le_refl _))) (ih _ _)
    · split
      · split
        · exact le_trans (expectToken_pos_ge_trans _ _ (expectToken_pos_ge_trans _ _
            (expectToken_pos_ge_trans _ _ (adv_pos_ge_trans _ (Nat.le_refl _))))) (ih _ _)
        · exact le_trans (expectToken_pos_ge_trans _ _ (adv_pos_ge_trans _ (Nat.le_refl _))) (ih _ _)
      · split
        · split
          · split
            · exact le_trans (expectToken_pos_ge_trans _ _ (adv_pos_ge_trans _
                (expectToken_pos_ge_trans _ _ (expectToken_pos_ge_trans _ _
                  (adv_pos_ge_trans _ (Nat.le_refl _)))))) (ih _ _)
            · exact le_trans (expectToken_pos_ge_trans _ _ (expectToken_pos_ge_trans _ _
                (expectToken_pos_ge_trans _ _ (adv_pos_ge_trans _ (Nat.le_refl _))))) (ih _ _)
          · exact le_trans (expectToken_pos_ge_trans _ _ (adv_pos_ge_trans _ (Nat.le_refl _))) (ih _ _)
        · exact Nat.le_refl _

/-- The allocation loop never changes the token list. -/
theorem parseAlocacaoLoop_st_tokens :
    ∀ (fuel : Nat) (st : PState) (a : List (String × Frac)),
      (parseAlocacaoLoop fuel st a).st.tokens = st.tokens := by
  intro fuel
  induction fuel with
  | zero => intro st a; rfl
  | succ fuel ih =>
    intro st a
    simp only [parseAlocacaoLoop]
    split
    · split
      · split
        · rw [ih]
          simp only [expectToken_st_tokens, adv_tokens]
        · rw [ih]
          simp only [expectToken_st_tokens, adv_tokens]
      · rw [ih]
        simp only [expectToken_st_tokens, adv_tokens]
    · rfl

/-- The allocation loop never moves the cursor left. -/
theorem parseAlocacaoLoop_st_pos_ge :
    ∀ (fuel : Nat) (st : PState) (a : List (String × Frac)),
      st.pos ≤ (parseAlocacaoLoop fuel st a).st.pos := by
  intro fuel
  induction fuel with
  | zero => intro st a; exact Nat.le_refl _
  | succ fuel ih =>
    intro st a
    simp only [parseAlocacaoLoop]
    split
    · split
      · split
        · exact le_trans (expectToken_pos_ge_trans _ _ (expectToken_pos_ge_trans _ _
            (expectToken_pos_ge_trans _ _ (expectToken_pos_ge_trans _ _
              (adv_pos_ge_trans _ (Nat.le_refl _)))))) (ih _ _)
        · exact le_trans (expectToken_pos_ge_trans _ _ (expectToken_pos_ge_trans _ _
            (expectToken_pos_ge_trans _ _ (adv_pos_ge_trans _ (Nat.le_refl _))))) (ih _ _)
      · exact le_trans (expectToken_pos_ge_trans _ _ (adv_pos_ge_trans _ (Nat.le_refl _))) (ih _ _)
    · exact Nat.le_refl _

/-- The restriction loop never changes the token list. -/
theorem parseRestricoesLoop_st_tokens :
    ∀ (fuel : Nat) (st : PState) (acc : Restr),
      (parseRestricoesLoop fuel st acc).st.tokens = st.tokens := by
  intro fuel
  induction fuel with
  | zero => intro st acc; rfl
  | succ fuel ih =>
    intro st acc
    simp only [parseRestricoesLoop]
    split
    · split
      · split
        · rw [ih]
          simp only [expectToken_st_tokens, adv_tokens]
        · rw [ih]
          simp only [expectToken_st_tokens, adv_tokens]
      · rw [ih]
        simp only [expectToken_st_tokens, adv_tokens]
    · split
      · split
        · split
          · rw [ih]
            simp only [expectToken_st_tokens, adv_tokens]
          · rw [ih]
            simp only [expectToken_st_tokens, adv_tokens]
        · rw [ih]
          simp only [expectToken_st_tokens, adv_tokens]
      · rfl

/-- The restriction loop never moves the cursor left. -/
theorem parseRestricoesLoop_st_pos_ge :
    ∀ (fuel : Nat) (st : PState) (acc : Restr),
      st.pos ≤ (parseRestricoesLoop fuel st acc).st.pos := by
  intro fuel
  induction fuel with
  | zero => intro st acc; exact Nat.le_refl _
  | succ fuel ih =>
    intro st acc
    simp only [parseRestricoesLoop]
    split
    · split
      · split
        · exact le_trans (expectToken_pos_ge_trans _ _ (expectToken_pos_ge_trans _ _
            (expectToken_pos_ge_trans _ _ (expectToken_pos_ge_trans _ _
              (adv_pos_ge_trans _ (Nat.le_refl _)))))) (ih _ _)
        · exact le_trans (expectToken_pos_ge_trans _ _ (expectToken_pos_ge_trans _ _
            (expectToken_pos_ge_trans _ _ (adv_pos_ge_trans _ (Nat.le_refl _))))) (ih _ _)
      · exact le_trans (expectToken_pos_ge_trans _ _ (adv_pos_ge_trans _ (Nat.le_refl _))) (ih _ _)
    · split
      · split
        · split
          · exact le_trans (expectToken_pos_ge_trans _ _ (expectToken_pos_ge_trans _ _
              (expectToken_pos_ge_trans _ _ (expectToken_pos_ge_trans _ _
                (adv_pos_ge_trans _ (Nat.le_refl _)))))) (ih _ _)
          · exact le_trans (expectToken_pos_ge_trans _ _ (expectToken_pos_ge_trans _ _
              (expectToken_pos_ge_trans _ _ (adv_pos_ge_trans _ (Nat.le_refl _))))) (ih _ _)
        · exact le_trans (expectToken_pos_ge_trans _ _ (adv_pos_ge_trans _ (Nat.le_refl _))) (ih _ _)
      · exact Nat.le_refl _

/-- Model of `parse_alocacao` never changes the token list. -/
theorem parseAlocacao_st_tokens (fuel : Nat) (st : PState) :
    (parseAlocacao fuel st).st.tokens = st.tokens := by
  simp only [parseAlocacao]
  split
  · simp only [expectToken_st_tokens]
  · split
    · simp only [expectToken_st_tokens]
    · simp only [expectToken_st_tokens, parseAlocacaoLoop_st_tokens]

/-- Model of `parse_alocacao` never moves the cursor left. -/
theorem parseAlocacao_st_pos_ge (fuel : Nat) (st : PState) :
    st.pos ≤ (parseAlocacao fuel st).st.pos := by
  simp only [parseAlocacao]
  split
  · exact expectToken_pos_ge_trans _ _ (Nat.le_refl _)
  · split
    · exact expectToken_pos_ge_trans _ _ (expectToken_pos_ge_trans _ _ (Nat.le_refl _))
    · exact expectToken_pos_ge_trans _ _ (le_trans
        (expectToken_pos_ge_trans _ _ (expectToken_pos_ge_trans _ _ (Nat.le_refl _)))
        (parseAlocacaoLoop_st_pos_ge _ _ _))

/-- Fuel stability of the `parse_alocacao` model on EOF-terminated token lists. -/
theorem parseAlocacao_fuel_stable (st : PState)
    (hEof : (st.tokens.getLastD dummyTok).type = TokenType.EOF)
    (n m : Nat) (hn : st.tokens.length - st.pos < n) (hm : st.tokens.length - st.pos < m) :
    parseAlocacao n st = parseAlocacao m st := by
  have ht : (expectToken TokenType.CHAVE_ABRE
      (expectToken TokenType.ALOCACAO st).st).st.tokens = st.tokens := by
    simp only [expectToken_st_tokens]
  have hp : st.pos ≤ (expectToken TokenType.CHAVE_ABRE
      (expectToken TokenType.ALOCACAO st).st).st.pos :=
    expectToken_pos_ge_trans _ _ (expectToken_pos_ge_trans _ _ (Nat.le_refl _))
  have hloop : parseAlocacaoLoop n
      (expectToken TokenType.CHAVE_ABRE (expectToken TokenType.ALOCACAO st).st).st [] =
      parseAlocacaoLoop m
      (expectToken TokenType.CHAVE_ABRE (expectToken TokenType.ALOCACAO st).st).st [] :=
    parseAlocacaoLoop_fuel_stable _ _ [] (Nat.le_refl _) (by rw [ht]; exact hEof) n m
      (by rw [ht]; omega) (by rw [ht]; omega)
  simp only [parseAlocacao]
  rw [hloop]

/-- Fuel stability of the `parse_restricoes` model on EOF-terminated token lists. -/
theorem parseRestricoes_fuel_stable (st : PState)
    (hEof : (st.tokens.getLastD dummyTok).type = TokenType.EOF)
    (n m : Nat) (hn : st.tokens.length - st.pos < n) (hm : st.tokens.length - st.pos < m) :
    parseRestricoes n st = parseRestricoes m st := by
  have ht : (expectToken TokenType.CHAVE_ABRE st.adv).st.tokens = st.tokens := by
    simp only [expectToken_st_tokens, adv_tokens]
  have hp : st.pos ≤ (expectToken TokenType.CHAVE_ABRE st.adv).st.pos :=
    expectToken_pos_ge_trans _ _ (adv_pos_ge_trans _ (Nat.le_refl _))
  have hloop : parseRestricoesLoop n (expectToken TokenType.CHAVE_ABRE st.adv).st {} =
      parseRestricoesLoop m (expectToken TokenType.CHAVE_ABRE st.adv).st {} :=
    parseRestricoesLoop_fuel_stable _ _ {} (Nat.le_refl _) (by rw [ht]; exact hEof) n m
      (by rw [ht]; omega) (by rw [ht]; omega)
  simp only [parseRestricoes]
  rw [hloop]

/-- Fuel stability of the `parse_carteira` body on EOF-terminated token lists. -/
theorem parseCarteiraBody_fuel_stable (st : PState)
    (hEof : (st.tokens.getLastD dummyTok).type = TokenType.EOF)
    (n m : Nat) (hn : st.tokens.length - st.pos < n) (hm : st.tokens.length - st.pos < m) :
    parseCarteiraBody n st = parseCarteiraBody m st := by
  have hc : parseConfiguracoes n st {} = parseConfiguracoes m st {} :=
    parseConfiguracoes_fuel_stable (st.tokens.length - st.pos) st {} (Nat.le_refl _) hEof
      n m hn hm
  have htc : (parseConfiguracoes m st {}).st.tokens = st.tokens :=
    parseConfiguracoes_st_tokens m st {}
  have hpc : st.pos ≤ (parseConfiguracoes m st {}).st.pos :=
    parseConfiguracoes_st_pos_ge m st {}
  have ha : parseAlocacao n (parseConfiguracoes m st {}).st =
      parseAlocacao m (parseConfiguracoes m st {}).st :=
    parseAlocacao_fuel_stable _ (by rw [htc]; exact hEof) n m
      (by rw [htc]; omega) (by rw [htc]; omega)
  have hta : (parseAlocacao m (parseConfiguracoes m st {}).st).st.tokens = st.tokens := by
    rw [parseAlocacao_st_tokens, htc]
  have hpa : st.pos ≤ (parseAlocacao m (parseConfiguracoes m st {}).st).st.pos :=
    le_trans hpc (parseAlocacao_st_pos_ge _ _)
  have hr : parseRestricoes n (parseAlocacao m (parseConfiguracoes m st {}).st).st =
      parseRestricoes m (parseAlocacao m (parseConfiguracoes m st {}).st).st :=
    parseRestricoes_fuel_stable _ (by rw [hta]; exact hEof) n m
      (by rw [hta]; omega) (by rw [hta]; omega)
  simp only [parseCarteiraBody]
  rw [hc, ha, hr]

/-- The fixed fuel `tokens.length + 1` passed by the model of `parse_carteira` lies above the stability threshold: every sufficient fuel computes this same result, so the fuel is an artifact of the embedding and not a semantic bound. -/
theorem parseCarteiraBody_fuel_sufficient (st : PState)
    (hEof : (st.tokens.getLastD dummyTok).type = TokenType.EOF)
    (f : Nat) (hf : st.tokens.length - st.pos < f) :
    parseCarteiraBody f st = parseCarteiraBody (st.tokens.length + 1) st :=
  parseCarteiraBody_fuel_stable st hEof f (st.tokens.length + 1) hf (by omega)

end PortLang
